import Mathlib

/-!
Verification of the STK500v2-compatible AVR bootloader
(`src/arduino support/stk500v2bootloader/stk500boot.c`).

The development shallowly embeds the bootloader's `main` loop: the frame
parser state machine (`ST_START` .. `ST_PROCESS`), the command dispatcher
(the `switch (msgBuffer[0])`), and the reply encoder.  Machine integers are
modelled as `Nat` with explicit `% 256` at every `unsigned char` store and
`% 65536` at every `unsigned int` / 16-bit `address_t` store (the source is
compiled for an ATmega with at most 64 KiB of flash, so `RAMPZ` is not
defined and `address_t` is `uint16_t`; `int`/`unsigned int` are 16-bit on
AVR).  Hardware side effects (UART transmission, flash page erase/write)
are recorded as an explicit event trace.  Flash, EEPROM, the SPM temporary
page buffer and the 285-byte message buffer are modelled as total maps
`Nat → Nat`; an out-of-bounds C array write simply becomes a write to the
map at the out-of-bounds index, which the event trace makes observable.
-/

set_option maxRecDepth 4000

namespace STK

/-- Modelled from the spec: `command.h` (the AVR068 STK500v2 protocol
constant header included by `stk500boot.c`) is not part of the sources;
per spec section 6 the start marker, token, command codes and status codes
follow the STK500v2 numeric assignments (the start marker `0x1B` and token
`0x0E` are confirmed by spec scenario 1). -/
def MESSAGE_START : Nat := 0x1B

/-- Modelled from the spec: the fixed token byte (spec scenario 1). -/
def TOKEN : Nat := 0x0E

/-- Modelled from the spec: STK500v2 command code (spec scenario 1 shows the
sign-on command byte `0x01`). -/
def CMD_SIGN_ON : Nat := 0x01

/-- Modelled from the spec: STK500v2 command code. -/
def CMD_SET_PARAMETER : Nat := 0x02

/-- Modelled from the spec: STK500v2 command code. -/
def CMD_GET_PARAMETER : Nat := 0x03

/-- Modelled from the spec: STK500v2 command code. -/
def CMD_LOAD_ADDRESS : Nat := 0x06

/-- Modelled from the spec: STK500v2 command code. -/
def CMD_ENTER_PROGMODE_ISP : Nat := 0x10

/-- Modelled from the spec: STK500v2 command code. -/
def CMD_LEAVE_PROGMODE_ISP : Nat := 0x11

/-- Modelled from the spec: STK500v2 command code. -/
def CMD_CHIP_ERASE_ISP : Nat := 0x12

/-- Modelled from the spec: STK500v2 command code. -/
def CMD_PROGRAM_FLASH_ISP : Nat := 0x13

/-- Modelled from the spec: STK500v2 command code. -/
def CMD_READ_FLASH_ISP : Nat := 0x14

/-- Modelled from the spec: STK500v2 command code. -/
def CMD_PROGRAM_EEPROM_ISP : Nat := 0x15

/-- Modelled from the spec: STK500v2 command code. -/
def CMD_READ_EEPROM_ISP : Nat := 0x16

/-- Modelled from the spec: STK500v2 command code. -/
def CMD_READ_FUSE_ISP : Nat := 0x18

/-- Modelled from the spec: STK500v2 command code. -/
def CMD_READ_LOCK_ISP : Nat := 0x1A

/-- Modelled from the spec: STK500v2 command code. -/
def CMD_READ_SIGNATURE_ISP : Nat := 0x1B

/-- Modelled from the spec: STK500v2 command code. -/
def CMD_SPI_MULTI : Nat := 0x1D

/-- `stk500boot.c` line 93: sentinel synthesized by `recchar` on timeout. -/
def CMD_PROGRAMMER_TIMEOUT : Nat := 0x2F

/-- Modelled from the spec: STK500v2 status code (status-OK; spec scenario 1
shows `0x00`). -/
def STATUS_CMD_OK : Nat := 0x00

/-- Modelled from the spec: STK500v2 status code (status-FAILED). -/
def STATUS_CMD_FAILED : Nat := 0xC0

/-- Modelled from the spec: STK500v2 parameter ids used by
`CMD_GET_PARAMETER` (exact numeric values are irrelevant to every claim;
they only select among the fixed version constants). -/
def PARAM_BUILD_NUMBER_LOW : Nat := 0x80

/-- Modelled from the spec: STK500v2 parameter id. -/
def PARAM_BUILD_NUMBER_HIGH : Nat := 0x81

/-- Modelled from the spec: STK500v2 parameter id. -/
def PARAM_HW_VER : Nat := 0x90

/-- Modelled from the spec: STK500v2 parameter id. -/
def PARAM_SW_MAJOR : Nat := 0x91

/-- Modelled from the spec: STK500v2 parameter id. -/
def PARAM_SW_MINOR : Nat := 0x92

/-- `CONFIG_PARAM_*` constants, `stk500boot.c` lines 142-146. -/
def CONFIG_PARAM_BUILD_NUMBER_LOW : Nat := 0
def CONFIG_PARAM_BUILD_NUMBER_HIGH : Nat := 0
def CONFIG_PARAM_HW_VER : Nat := 0x0F
def CONFIG_PARAM_SW_MAJOR : Nat := 2
def CONFIG_PARAM_SW_MINOR : Nat := 0x0A

/-- States of the receive state machine, `parseState_t` (lines 290-299). -/
inductive ParseState where
  | stStart
  | stGetSeqNum
  | stMsgSize1
  | stMsgSize2
  | stGetToken
  | stGetData
  | stGetCheck
  | stProcess
deriving DecidableEq, Repr

/-- Observable hardware effects of one run: a byte sent on the UART
(`sendchar`), a write into `msgBuffer` by the parser, a flash page erase
(`boot_page_erase`) and a flash page write (`boot_page_write`), each
recorded with the byte address passed to the primitive. -/
inductive Ev where
  | out (b : Nat)
  | bufWrite (idx val : Nat)
  | pageErase (a : Nat)
  | pageWrite (a : Nat)
deriving DecidableEq, Repr

/-- Device-dependent constants: `SPM_PAGESIZE` (bytes per flash page),
`BOOTLOADER_ADDRESS` (byte address where the bootloader starts; `APP_END`
on line 154 is `BOOTLOADER_ADDRESS - 1`), `SIGNATURE_BYTES` (lines
161-199) and the fuse/lock registers read by `boot_lock_fuse_bits_get`. -/
structure Device where
  pageSize : Nat
  bootAddr : Nat
  signature : Nat
  fuseLow : Nat
  fuseHigh : Nat
  fuseExt : Nat
  lockBits : Nat

/-- The mutable state of `main` (lines 380-388) together with the memories
acted on by the programming primitives.  `address` is the `address_t`
(16-bit) current byte address; `bufIdx` is the payload index `i`;
`pageBuf` is the SPM temporary page buffer, indexed by word offset within
the page. -/
@[ext] structure Session where
  address : Nat
  checksum : Nat
  seqNum : Nat
  msgLength : Nat
  msgBuffer : Nat → Nat
  bufIdx : Nat
  isLeave : Nat
  state : ParseState
  flash : Nat → Nat
  pageBuf : Nat → Nat
  eeprom : Nat → Nat

/-- Store one byte into a byte-valued map (an `unsigned char` array store
truncates to 8 bits). -/
def upd (f : Nat → Nat) (i v : Nat) : Nat → Nat :=
  fun k => if k = i then v % 256 else f k

/-- 8-bit XOR of a list of bytes (all list members are `< 256`). -/
def listXor : List Nat → Nat
  | [] => 0
  | b :: bs => b ^^^ listXor bs

/-- One step of the receive state machine: the body of the inner
`while (msgParseState != ST_PROCESS)` loop for one received byte `c0`
(lines 427-505).  `recchar` yields an `unsigned char`, hence the `% 256`. -/
def parseStep (s : Session) (c0 : Nat) : Session × List Ev :=
  let c := c0 % 256
  match s.state with
  | ParseState.stStart =>
    if c = MESSAGE_START then
      ({ s with state := ParseState.stGetSeqNum, checksum := MESSAGE_START ^^^ 0 }, [])
    else if c = CMD_PROGRAMMER_TIMEOUT then
      ({ s with
           msgBuffer := upd s.msgBuffer 0 CMD_PROGRAMMER_TIMEOUT,
           state := ParseState.stProcess },
       [Ev.bufWrite 0 CMD_PROGRAMMER_TIMEOUT])
    else (s, [])
  | ParseState.stGetSeqNum =>
    if c = 1 ∨ c = s.seqNum then
      ({ s with seqNum := c, state := ParseState.stMsgSize1, checksum := s.checksum ^^^ c }, [])
    else
      ({ s with state := ParseState.stStart }, [])
  | ParseState.stMsgSize1 =>
    ({ s with msgLength := c <<< 8, state := ParseState.stMsgSize2, checksum := s.checksum ^^^ c }, [])
  | ParseState.stMsgSize2 =>
    ({ s with msgLength := s.msgLength ||| c, state := ParseState.stGetToken, checksum := s.checksum ^^^ c }, [])
  | ParseState.stGetToken =>
    if c = TOKEN then
      ({ s with state := ParseState.stGetData, checksum := s.checksum ^^^ c, bufIdx := 0 }, [])
    else
      ({ s with state := ParseState.stStart }, [])
  | ParseState.stGetData =>
    let s1 := { s with
                  msgBuffer := upd s.msgBuffer s.bufIdx c,
                  bufIdx := (s.bufIdx + 1) % 65536,
                  checksum := s.checksum ^^^ c }
    (if s1.bufIdx = s1.msgLength then { s1 with state := ParseState.stGetCheck } else s1,
     [Ev.bufWrite s.bufIdx c])
  | ParseState.stGetCheck =>
    if c = s.checksum then ({ s with state := ParseState.stProcess }, [])
    else ({ s with state := ParseState.stStart }, [])
  | ParseState.stProcess => (s, [])

/-- `boot_page_erase(a)`: the flash page containing byte address `a` is set
to `0xFF` (erased state). -/
def erasePage (pageSize a : Nat) (flash : Nat → Nat) : Nat → Nat :=
  fun x => if a - a % pageSize ≤ x ∧ x < a - a % pageSize + pageSize then 0xFF else flash x

/-- `boot_page_write(a)`: the flash page containing byte address `a` is
overwritten with the contents of the temporary page buffer.  The buffer is
word-indexed; byte `x` of the page receives the low (even offset) or high
(odd offset) byte of word `(x - pagestart) / 2`. -/
def commitPage (pageSize a : Nat) (pageBuf flash : Nat → Nat) : Nat → Nat :=
  fun x =>
    let base := a - a % pageSize
    if base ≤ x ∧ x < base + pageSize then
      if (x - base) % 2 = 0 then pageBuf ((x - base) / 2) % 256
      else pageBuf ((x - base) / 2) / 256 % 256
    else flash x

/-- Generic do-while iteration counter: starting from counter value `s`,
apply `step` (the counter update done at the end of the loop body) and
count the number of body executions until the counter reads zero, giving up
(`none`) after `fuel` executions.  Mirrors `do { ...; size -= k; } while (size);`. -/
def loopCount (step : Nat → Nat) : Nat → Nat → Option Nat
  | 0, _ => none
  | fuel + 1, s =>
    let s1 := step s
    if s1 = 0 then some 1 else (loopCount step fuel s1).map (· + 1)

/-- `size--` on a 16-bit `unsigned int`. -/
def decBy1 (s : Nat) : Nat := (s + 65535) % 65536

/-- `size -= 2` on a 16-bit `unsigned int`. -/
def decBy2 (s : Nat) : Nat := (s + 65534) % 65536

/-- Number of body executions of the byte-granular do-while loops
(`CMD_PROGRAM_EEPROM_ISP`, `CMD_READ_EEPROM_ISP`): `size--; while (size)`.
`65536` executions always suffice to reach zero, so the fuel is never the
limiting factor. -/
def byteLoopIters (size : Nat) : Option Nat := loopCount decBy1 65536 size

/-- Number of body executions of the word-granular do-while loops
(`CMD_PROGRAM_FLASH_ISP`, `CMD_READ_FLASH_ISP`): `size -= 2; while (size)`.
For an odd 16-bit `size` the counter steps through odd values forever and
the C loop never terminates; `loopCount` then returns `none` (the parity
argument is `loopCount_decBy2_odd` below). -/
def flashLoopIters (size : Nat) : Option Nat := loopCount decBy2 65536 size

/-- The flash-programming do-while body (lines 697-706), iterated `n`
times: read a little-endian word from `msgBuffer` at `p`, fill it into the
temporary page buffer at the word offset selected by the low bits of
`address` (`boot_page_fill`), advance `address` by 2 and `p` by 2.
Returns `(p, address, pageBuf)` after `n` iterations. -/
def fillLoopGo (pageSize : Nat) (buf : Nat → Nat) :
    Nat → Nat → Nat → (Nat → Nat) → Nat × Nat × (Nat → Nat)
  | 0, p, address, pageBuf => (p, address, pageBuf)
  | n + 1, p, address, pageBuf =>
    let lowByte := buf p % 256
    let highByte := buf (p + 1) % 256
    let data := highByte <<< 8 ||| lowByte
    let pageBuf1 := fun o => if o = address % pageSize / 2 then data else pageBuf o
    fillLoopGo pageSize buf n (p + 2) ((address + 2) % 65536) pageBuf1

/-- The flash-reading do-while body (lines 747-757), iterated `n` times:
`pgm_read_word_near(address)` reads the little-endian word made of flash
bytes `address` and `address+1`; its LSB and MSB are stored at `p` and
`p+1`.  Returns `(p, address, buf)` after `n` iterations. -/
def readFlashLoopGo (flash : Nat → Nat) :
    Nat → Nat → Nat → (Nat → Nat) → Nat × Nat × (Nat → Nat)
  | 0, p, address, buf => (p, address, buf)
  | n + 1, p, address, buf =>
    let data := flash address % 256 + (flash ((address + 1) % 65536) % 256) * 256
    let buf1 := upd (upd buf p data) (p + 1) (data / 256)
    readFlashLoopGo flash n (p + 2) ((address + 2) % 65536) buf1

/-- The EEPROM-programming do-while body (lines 716-727), iterated `n`
times: write `*p++` to EEPROM at `address`, then `address++` (16-bit). -/
def eeWriteLoopGo (buf : Nat → Nat) :
    Nat → Nat → Nat → (Nat → Nat) → Nat × Nat × (Nat → Nat)
  | 0, p, address, ee => (p, address, ee)
  | n + 1, p, address, ee =>
    let ee1 := fun k => if k = address then buf p % 256 else ee k
    eeWriteLoopGo buf n (p + 1) ((address + 1) % 65536) ee1

/-- The EEPROM-reading do-while body (lines 762-769), iterated `n` times:
store the EEPROM byte at `address` to `*p++`, then `address++` (16-bit). -/
def eeReadLoopGo (ee : Nat → Nat) :
    Nat → Nat → Nat → (Nat → Nat) → Nat × Nat × (Nat → Nat)
  | 0, p, address, buf => (p, address, buf)
  | n + 1, p, address, buf =>
    let buf1 := upd buf p (ee address)
    eeReadLoopGo ee n (p + 1) ((address + 1) % 65536) buf1

/-- The command dispatcher: `switch (msgBuffer[0])` (lines 511-784).
Returns `none` when the dispatched handler never terminates (the odd-size
flash do-while loops); the event list carries the hardware effects emitted
before that point.  `CMD_PROGRAM_LOCK_ISP` is compiled out
(`REMOVE_PROGRAM_LOCK_BIT_SUPPORT` is defined on line 76), so lock-bit
programming falls through to the `default` branch. -/
def dispatch (dev : Device) (s : Session) : Option Session × List Ev :=
  let cmd := s.msgBuffer 0 % 256
  if cmd = CMD_SPI_MULTI then
    let answerByte :=
      if s.msgBuffer 4 % 256 = 0x30 then
        let signatureIndex := s.msgBuffer 6 % 256
        if signatureIndex = 0 then dev.signature / 65536 % 256
        else if signatureIndex = 1 then dev.signature / 256 % 256
        else dev.signature % 256
      else 0
    let b4 := s.msgBuffer 4 % 256
    let b5 := s.msgBuffer 5 % 256
    (some { s with
              msgLength := 7,
              msgBuffer := upd (upd (upd (upd (upd (upd s.msgBuffer
                1 STATUS_CMD_OK) 2 0) 3 b4) 4 b5) 5 answerByte) 6 STATUS_CMD_OK }, [])
  else if cmd = CMD_SIGN_ON then
    (some { s with
              msgLength := 11,
              msgBuffer := upd (upd (upd (upd (upd (upd (upd (upd (upd (upd s.msgBuffer
                1 STATUS_CMD_OK) 2 8) 3 0x41) 4 0x56) 5 0x52) 6 0x49) 7 0x53)
                8 0x50) 9 0x5F) 10 0x32 }, [])
  else if cmd = CMD_GET_PARAMETER then
    let b1 := s.msgBuffer 1 % 256
    let value :=
      if b1 = PARAM_BUILD_NUMBER_LOW then CONFIG_PARAM_BUILD_NUMBER_LOW
      else if b1 = PARAM_BUILD_NUMBER_HIGH then CONFIG_PARAM_BUILD_NUMBER_HIGH
      else if b1 = PARAM_HW_VER then CONFIG_PARAM_HW_VER
      else if b1 = PARAM_SW_MAJOR then CONFIG_PARAM_SW_MAJOR
      else if b1 = PARAM_SW_MINOR then CONFIG_PARAM_SW_MINOR
      else 0
    (some { s with
              msgLength := 3,
              msgBuffer := upd (upd s.msgBuffer 1 STATUS_CMD_OK) 2 value }, [])
  else if cmd = CMD_LEAVE_PROGMODE_ISP then
    (some { s with
              isLeave := 1,
              msgLength := 2,
              msgBuffer := upd s.msgBuffer 1 STATUS_CMD_OK }, [])
  else if cmd = CMD_ENTER_PROGMODE_ISP ∨ cmd = CMD_SET_PARAMETER then
    (some { s with msgLength := 2, msgBuffer := upd s.msgBuffer 1 STATUS_CMD_OK }, [])
  else if cmd = CMD_READ_SIGNATURE_ISP then
    let signatureIndex := s.msgBuffer 4 % 256
    let signature :=
      if signatureIndex = 0 then dev.signature / 65536 % 256
      else if signatureIndex = 1 then dev.signature / 256 % 256
      else dev.signature % 256
    (some { s with
              msgLength := 4,
              msgBuffer := upd (upd (upd s.msgBuffer 1 STATUS_CMD_OK) 2 signature) 3 STATUS_CMD_OK }, [])
  else if cmd = CMD_READ_LOCK_ISP then
    (some { s with
              msgLength := 4,
              msgBuffer := upd (upd (upd s.msgBuffer 1 STATUS_CMD_OK) 2 dev.lockBits) 3 STATUS_CMD_OK }, [])
  else if cmd = CMD_READ_FUSE_ISP then
    let fuseBits :=
      if s.msgBuffer 2 % 256 = 0x50 then
        if s.msgBuffer 3 % 256 = 0x08 then dev.fuseExt else dev.fuseLow
      else dev.fuseHigh
    (some { s with
              msgLength := 4,
              msgBuffer := upd (upd (upd s.msgBuffer 1 STATUS_CMD_OK) 2 fuseBits) 3 STATUS_CMD_OK }, [])
  else if cmd = CMD_CHIP_ERASE_ISP then
    (some { s with msgLength := 2, msgBuffer := upd s.msgBuffer 1 STATUS_CMD_OK }, [])
  else if cmd = CMD_LOAD_ADDRESS then
    (some { s with
              address := ((s.msgBuffer 3 % 256) <<< 8 ||| s.msgBuffer 4 % 256) <<< 1 % 65536,
              msgLength := 2,
              msgBuffer := upd s.msgBuffer 1 STATUS_CMD_OK }, [])
  else if cmd = CMD_PROGRAM_FLASH_ISP ∨ cmd = CMD_PROGRAM_EEPROM_ISP then
    let size := (s.msgBuffer 1 % 256) <<< 8 ||| s.msgBuffer 2 % 256
    if cmd = CMD_PROGRAM_FLASH_ISP then
      if s.address < dev.bootAddr - 1 then
        let erased := erasePage dev.pageSize s.address s.flash
        match flashLoopIters size with
        | none => (none, [Ev.pageErase s.address])
        | some n =>
          let r := fillLoopGo dev.pageSize s.msgBuffer n 10 s.address s.pageBuf
          (some { s with
                    flash := commitPage dev.pageSize s.address r.2.2 erased,
                    pageBuf := r.2.2,
                    address := r.2.1,
                    msgLength := 2,
                    msgBuffer := upd s.msgBuffer 1 STATUS_CMD_OK },
           [Ev.pageErase s.address, Ev.pageWrite s.address])
      else
        (some { s with msgLength := 2, msgBuffer := upd s.msgBuffer 1 STATUS_CMD_OK }, [])
    else
      match byteLoopIters size with
      | none => (none, [])
      | some n =>
        let r := eeWriteLoopGo s.msgBuffer n 10 s.address s.eeprom
        (some { s with
                  eeprom := r.2.2,
                  address := r.2.1,
                  msgLength := 2,
                  msgBuffer := upd s.msgBuffer 1 STATUS_CMD_OK }, [])
  else if cmd = CMD_READ_FLASH_ISP ∨ cmd = CMD_READ_EEPROM_ISP then
    let size := (s.msgBuffer 1 % 256) <<< 8 ||| s.msgBuffer 2 % 256
    let buf1 := upd s.msgBuffer 1 STATUS_CMD_OK
    if cmd = CMD_READ_FLASH_ISP then
      match flashLoopIters size with
      | none => (none, [])
      | some n =>
        let r := readFlashLoopGo s.flash n 2 s.address buf1
        (some { s with
                  msgBuffer := upd r.2.2 r.1 STATUS_CMD_OK,
                  address := r.2.1,
                  msgLength := (size + 3) % 65536 }, [])
    else
      match byteLoopIters size with
      | none => (none, [])
      | some n =>
        let r := eeReadLoopGo s.eeprom n 2 s.address buf1
        (some { s with
                  msgBuffer := upd r.2.2 r.1 STATUS_CMD_OK,
                  address := r.2.1,
                  msgLength := (size + 3) % 65536 }, [])
  else if cmd = CMD_PROGRAMMER_TIMEOUT then
    (some { s with isLeave := 2 }, [])
  else
    (some { s with msgLength := 2, msgBuffer := upd s.msgBuffer 1 STATUS_CMD_FAILED }, [])

/-- The reply encoder (lines 789-817): when `isLeave < 2`, send the start
marker, the current sequence number, the big-endian length, the token, the
`msgLength` payload bytes from `msgBuffer` and the trailing XOR checksum,
then `seqNum++` (8-bit).  The `while (msgLength)` transmit loop leaves
`msgLength` at zero and `checksum` at the transmitted checksum. -/
def replyStep (s : Session) : Session × List Ev :=
  if s.isLeave < 2 then
    let body := MESSAGE_START :: s.seqNum :: (s.msgLength >>> 8 % 256) :: (s.msgLength % 256) ::
      TOKEN :: (List.range s.msgLength).map (fun k => s.msgBuffer k % 256)
    let chk := listXor body
    ({ s with
         seqNum := (s.seqNum + 1) % 256,
         msgLength := 0,
         checksum := chk },
     (body ++ [chk]).map Ev.out)
  else (s, [])

/-- What `main` does once the parser reaches `ST_PROCESS`: dispatch the
command, send the reply (suppressed when `isLeave = 2`), and restart the
parser at `ST_START` for the next frame. -/
def dispatchReply (dev : Device) (s : Session) : Option (Session × List Ev) :=
  match dispatch dev s with
  | (none, _) => none
  | (some s1, ev1) =>
    let r := replyStep s1
    some ({ r.1 with state := ParseState.stStart }, ev1 ++ r.2)

/-- The `main` loop (lines 419-818) run on a list of input bytes: each byte
is fed to the parser; on `ST_PROCESS` the frame is dispatched and answered.
The loop stops consuming input once `isLeave` is nonzero (`while (!isLeave)`).
Returns `none` if a dispatched handler never terminates. -/
def sessionRun (dev : Device) (s : Session) : List Nat → Option (Session × List Ev)
  | [] => some (s, [])
  | c :: rest =>
    if s.isLeave ≠ 0 then some (s, [])
    else
      let p := parseStep s c
      if p.1.state = ParseState.stProcess then
        match dispatchReply dev p.1 with
        | none => none
        | some (s2, ev2) =>
          match sessionRun dev s2 rest with
          | none => none
          | some (s3, ev3) => some (s3, p.2 ++ ev2 ++ ev3)
      else
        match sessionRun dev p.1 rest with
        | none => none
        | some (s3, ev3) => some (s3, p.2 ++ ev3)

/-- Initial state of `main`'s locals (lines 380-388): everything zeroed as
in the source; the uninitialized `msgBuffer` and the memories are given
arbitrary concrete contents for concrete runs. -/
def initSession : Session :=
  { address := 0, checksum := 0, seqNum := 0, msgLength := 0,
    msgBuffer := fun _ => 0, bufIdx := 0, isLeave := 0,
    state := ParseState.stStart,
    flash := fun _ => 0xFF, pageBuf := fun _ => 0xFFFF, eeprom := fun _ => 0xFF }

/-- A concrete device for witnesses: ATmega644-class (256-byte flash pages,
bootloader at byte address `0xF800`, the line-180 signature). -/
def devEx : Device :=
  { pageSize := 256, bootAddr := 0xF800, signature := 0x1E9609,
    fuseLow := 0x62, fuseHigh := 0x99, fuseExt := 0xFF, lockBits := 0x3F }

/-- The UART bytes among an event trace, in order. -/
def outBytes (evs : List Ev) : List Nat :=
  evs.filterMap fun e => match e with | Ev.out b => some b | _ => none

/-- The wire bytes of one frame: start marker, sequence byte, length bytes,
token, payload, trailing checksum byte. -/
def frameBytes (q lh ll : Nat) (ps : List Nat) (chk : Nat) : List Nat :=
  MESSAGE_START :: q :: lh :: ll :: TOKEN :: (ps ++ [chk])

/-- The checksum byte that makes a frame valid: 8-bit XOR of every
preceding frame byte. -/
def goodChk (q lh ll : Nat) (ps : List Nat) : Nat :=
  listXor (MESSAGE_START :: q :: lh :: ll :: TOKEN :: ps)

/-- Write a list of bytes into the message buffer at consecutive indices
(16-bit index arithmetic), exactly as the `ST_GET_DATA` writes do. -/
def writeListAt : (Nat → Nat) → Nat → List Nat → (Nat → Nat)
  | buf, _, [] => buf
  | buf, i, b :: bs => writeListAt (upd buf i b) ((i + 1) % 65536) bs

/-- The buffer-write events emitted while the parser stores a payload. -/
def payloadEvs : Nat → List Nat → List Ev
  | _, [] => []
  | i, b :: bs => Ev.bufWrite i (b % 256) :: payloadEvs ((i + 1) % 65536) bs

/-- The session state after the parser has consumed a frame header with
accepted sequence byte `q`, length bytes `lh`/`ll` and the full payload
`ps`, and sits in `ST_GET_CHECK` waiting for the checksum byte. -/
def postPayload (s : Session) (q lh ll : Nat) (ps : List Nat) : Session :=
  { s with
      seqNum := q,
      msgLength := lh * 256 + ll,
      msgBuffer := writeListAt s.msgBuffer 0 ps,
      bufIdx := ps.length,
      checksum := listXor (MESSAGE_START :: q :: lh :: ll :: TOKEN :: ps),
      state := ParseState.stGetCheck }

/-- The session state after a frame whose trailing checksum byte did not
match: back at `ST_START`, everything else as after the payload. -/
def postReject (s : Session) (q lh ll : Nat) (ps : List Nat) : Session :=
  { postPayload s q lh ll ps with state := ParseState.stStart }

/-- The session state handed to the dispatcher after a valid frame. -/
def postFrame (s : Session) (q lh ll : Nat) (ps : List Nat) : Session :=
  { postPayload s q lh ll ps with state := ParseState.stProcess }

/-- Ghost instrumentation for the checksum invariant: the list of bytes the
parser has folded into `checksum` for the frame currently being received.
It mirrors `parseStep` byte for byte: reset to `[MESSAGE_START]` when a
start marker is accepted, extended by exactly the bytes on which the source
executes `checksum ^= c`, and left untouched by every other transition. -/
def traceUpd (s : Session) (c0 : Nat) (tr : List Nat) : List Nat :=
  let c := c0 % 256
  match s.state with
  | ParseState.stStart => if c = MESSAGE_START then [MESSAGE_START] else tr
  | ParseState.stGetSeqNum => if c = 1 ∨ c = s.seqNum then tr ++ [c] else tr
  | ParseState.stMsgSize1 => tr ++ [c]
  | ParseState.stMsgSize2 => tr ++ [c]
  | ParseState.stGetToken => if c = TOKEN then tr ++ [c] else tr
  | ParseState.stGetData => tr ++ [c]
  | ParseState.stGetCheck => tr
  | ParseState.stProcess => tr

/-- The parser run together with its ghost frame-byte trace. -/
def parseRunTr : Session × List Nat → List Nat → Session × List Nat
  | p, [] => p
  | (s, tr), c :: rest => parseRunTr ((parseStep s c).1, traceUpd s c tr) rest

/-- Invariant tying the parser's `checksum` accumulator to the ghost trace:
in every mid-frame state the accumulator is the XOR of the recorded frame
bytes, and the trace has the shape start marker, sequence byte, two length
bytes, token, payload. -/
def goodTrace (s : Session) (tr : List Nat) : Prop :=
  match s.state with
  | ParseState.stGetSeqNum => s.checksum = listXor tr ∧ tr = [MESSAGE_START]
  | ParseState.stMsgSize1 => s.checksum = listXor tr ∧ ∃ q, tr = [MESSAGE_START, q]
  | ParseState.stMsgSize2 => s.checksum = listXor tr ∧ ∃ q l1, tr = [MESSAGE_START, q, l1]
  | ParseState.stGetToken => s.checksum = listXor tr ∧ ∃ q l1 l2, tr = [MESSAGE_START, q, l1, l2]
  | ParseState.stGetData =>
      s.checksum = listXor tr ∧ ∃ q l1 l2 ps, tr = MESSAGE_START :: q :: l1 :: l2 :: TOKEN :: ps
  | ParseState.stGetCheck =>
      s.checksum = listXor tr ∧ ∃ q l1 l2 ps, tr = MESSAGE_START :: q :: l1 :: l2 :: TOKEN :: ps
  | _ => True

/-- Replace the message buffer of a session (a freshly parsed command). -/
def withBuf (s : Session) (b : Nat → Nat) : Session := { s with msgBuffer := b }

/-- A buffer holding the given bytes at indices `0, 1, ...` and zero
elsewhere. -/
def mkBuf (l : List Nat) : Nat → Nat := fun k => l.getD k 0

/-- The payload of a `CMD_LOAD_ADDRESS` command for word address `w`
(big-endian in bytes 3 and 4). -/
def loadBuf (w : Nat) : Nat → Nat :=
  mkBuf [CMD_LOAD_ADDRESS, 0, 0, w / 256, w % 256]

/-- The payload of a `CMD_PROGRAM_FLASH_ISP` command: size `n` (big-endian
in bytes 1 and 2) and the data bytes `d 0, d 1, ...` from index 10 on. -/
def progFlashBuf (n : Nat) (d : Nat → Nat) : Nat → Nat :=
  fun k =>
    if k = 0 then CMD_PROGRAM_FLASH_ISP
    else if k = 1 then n / 256
    else if k = 2 then n % 256
    else if 10 ≤ k then d (k - 10)
    else 0

/-- The payload of a `CMD_READ_FLASH_ISP` command of size `n`. -/
def readFlashBuf (n : Nat) : Nat → Nat :=
  mkBuf [CMD_READ_FLASH_ISP, n / 256, n % 256]

/-- Concrete session for the boundary-claim witness: a program-flash frame
for address 0 with two data bytes. -/
def c1sW : Session := withBuf initSession (progFlashBuf 2 (fun _ => 0xAB))

/-- Concrete session for the sequence-acceptance witness: parser waiting
for a sequence byte, stored sequence number 7. -/
def c2sW : Session := { initSession with state := ParseState.stGetSeqNum, seqNum := 7 }

/-- Concrete session for the do-while witness: a read-EEPROM frame with
declared size 0. -/
def c9sW : Session := withBuf initSession (mkBuf [CMD_READ_EEPROM_ISP, 0, 0])

/-- The four-command round-trip of the spec: load the word address of byte
address `A`, program `N` data bytes, load the address again, read `N`
bytes back — each command dispatched exactly as a freshly parsed frame. -/
def roundTrip (dev : Device) (s : Session) (A N : Nat) (d : Nat → Nat) : Option Session :=
  (dispatch dev (withBuf s (loadBuf (A / 2)))).1.bind fun s1 =>
    (dispatch dev (withBuf s1 (progFlashBuf N d))).1.bind fun s2 =>
      (dispatch dev (withBuf s2 (loadBuf (A / 2)))).1.bind fun s3 =>
        (dispatch dev (withBuf s3 (readFlashBuf N))).1

lemma listXor_concat (l : List Nat) (c : Nat) : listXor (l ++ [c]) = listXor l ^^^ c := by
  induction l with
  | nil => simp [listXor]
  | cons b bs ih => simp [listXor, ih, Nat.xor_assoc]

lemma listXor_lt (l : List Nat) (h : ∀ b ∈ l, b < 256) : listXor l < 256 := by
  induction l with
  | nil => simp [listXor]
  | cons b bs ih =>
    have hb : b < 256 := h b (by simp)
    have hbs : listXor bs < 256 := ih fun x hx => h x (by simp [hx])
    have : b ^^^ listXor bs < 2 ^ 8 :=
      Nat.xor_lt_two_pow (by norm_num [hb]) (by norm_num [hbs])
    simpa [listXor] using this

lemma outBytes_append (l1 l2 : List Ev) : outBytes (l1 ++ l2) = outBytes l1 ++ outBytes l2 := by
  simp [outBytes]

lemma outBytes_payloadEvs (ps : List Nat) : ∀ i, outBytes (payloadEvs i ps) = [] := by
  induction ps with
  | nil => intro i; simp [payloadEvs, outBytes]
  | cons b bs ih => intro i; simp [payloadEvs, outBytes, ← ih ((i + 1) % 65536), outBytes]

lemma loopCount_succ (step : Nat → Nat) (f s : Nat) :
    loopCount step (f + 1) s =
      (if step s = 0 then some 1 else (loopCount step f (step s)).map (· + 1)) := rfl

lemma loopCount_dec1 : ∀ f s, 1 ≤ s → s ≤ f → s ≤ 65536 → loopCount decBy1 f s = some s := by
  intro f
  induction f with
  | zero => intro s h1 h2 _; omega
  | succ f ih =>
    intro s h1 h2 h3
    have hstep : decBy1 s = s - 1 := by simp only [decBy1]; omega
    rw [loopCount_succ, hstep]
    by_cases hs1 : s - 1 = 0
    · have : s = 1 := by omega
      simp [hs1, this]
    · rw [if_neg hs1, ih (s - 1) (by omega) (by omega) (by omega)]
      simp [Option.map]
      omega

lemma byteLoopIters_pos (s : Nat) (h1 : 1 ≤ s) (h2 : s ≤ 65535) : byteLoopIters s = some s :=
  loopCount_dec1 65536 s h1 (by omega) (by omega)

lemma byteLoopIters_zero : byteLoopIters 0 = some 65536 := by
  have h : (65536 : Nat) = 65535 + 1 := by norm_num
  rw [byteLoopIters, h, loopCount_succ]
  have hstep : decBy1 0 = 65535 := by simp [decBy1]
  rw [hstep, if_neg (by omega), loopCount_dec1 65535 65535 (by omega) (by omega) (by omega)]
  rfl

lemma loopCount_dec2_even : ∀ f s, 2 ≤ s → s % 2 = 0 → s ≤ 2 * f → s ≤ 65536 →
    loopCount decBy2 f s = some (s / 2) := by
  intro f
  induction f with
  | zero => intro s h1 _ h2 _; omega
  | succ f ih =>
    intro s h1 h2 h3 h4
    have hstep : decBy2 s = s - 2 := by simp only [decBy2]; omega
    rw [loopCount_succ, hstep]
    by_cases hs2 : s - 2 = 0
    · have : s = 2 := by omega
      simp [hs2, this]
    · rw [if_neg hs2, ih (s - 2) (by omega) (by omega) (by omega) (by omega)]
      simp [Option.map]
      omega

lemma flashLoopIters_even (s : Nat) (h1 : 2 ≤ s) (h2 : s % 2 = 0) (h3 : s ≤ 65535) :
    flashLoopIters s = some (s / 2) :=
  loopCount_dec2_even 65536 s h1 h2 (by omega) (by omega)

lemma flashLoopIters_zero : flashLoopIters 0 = some 32768 := by
  have h : (65536 : Nat) = 65535 + 1 := by norm_num
  rw [flashLoopIters, h, loopCount_succ]
  have hstep : decBy2 0 = 65534 := by simp [decBy2]
  rw [hstep, if_neg (by omega),
    loopCount_dec2_even 65535 65534 (by omega) (by omega) (by omega) (by omega)]
  rfl

lemma loopCount_dec2_odd : ∀ f s, s % 2 = 1 → loopCount decBy2 f s = none := by
  intro f
  induction f with
  | zero => intro s _; rfl
  | succ f ih =>
    intro s hodd
    have hstep : decBy2 s % 2 = 1 := by simp only [decBy2]; omega
    rw [loopCount_succ, if_neg (by omega), ih (decBy2 s) hstep]
    rfl

lemma flashLoopIters_odd (s : Nat) (h : s % 2 = 1) : flashLoopIters s = none :=
  loopCount_dec2_odd 65536 s h

lemma shl8_or_eq (a b : Nat) (hb : b < 256) : a <<< 8 ||| b = a * 256 + b := by
  have hb8 : b < 2 ^ 8 := by simpa using hb
  have h := Nat.mul_add_lt_is_or hb8 a
  rw [Nat.shiftLeft_eq, Nat.mul_comm a (2 ^ 8), ← h]

lemma shl1_eq (a : Nat) : a <<< 1 = a * 2 := by
  rw [Nat.shiftLeft_eq]

lemma eeReadLoopGo_spec (ee : Nat → Nat) :
    ∀ n p a buf, a < 65536 →
      eeReadLoopGo ee n p a buf =
        (p + n, (a + n) % 65536,
         fun i => if p ≤ i ∧ i < p + n then ee ((a + (i - p)) % 65536) % 256 else buf i) := by
  intro n
  induction n with
  | zero =>
    intro p a buf ha
    simp only [eeReadLoopGo, Prod.mk.injEq]
    refine ⟨by omega, by omega, ?_⟩
    funext i
    rw [if_neg (by omega)]
  | succ n ih =>
    intro p a buf ha
    simp only [eeReadLoopGo]
    rw [ih (p + 1) ((a + 1) % 65536) _ (Nat.mod_lt _ (by omega))]
    simp only [Prod.mk.injEq]
    refine ⟨by omega, by omega, ?_⟩
    funext i
    by_cases h1 : p + 1 ≤ i ∧ i < p + 1 + n
    · rw [if_pos h1, if_pos (by omega)]
      have harg : ((a + 1) % 65536 + (i - (p + 1))) % 65536 = (a + (i - p)) % 65536 := by omega
      rw [harg]
    · rw [if_neg h1]
      by_cases h2 : i = p
      · subst h2
        rw [if_pos (by omega)]
        have harg : (a + (i - i)) % 65536 = a := by omega
        rw [harg]
        simp [upd]
      · rw [if_neg (by omega)]
        simp [upd, h2]

lemma upd_same (f : Nat → Nat) (i v : Nat) : upd f i v i = v % 256 := by
  simp [upd]

lemma upd_other (f : Nat → Nat) (i v k : Nat) (h : k ≠ i) : upd f i v k = f k := by
  simp [upd, h]

lemma readFlashLoopGo_spec (flash : Nat → Nat) :
    ∀ n p a buf, a < 65536 → a + 2 * n ≤ 65536 →
      readFlashLoopGo flash n p a buf =
        (p + 2 * n, (a + 2 * n) % 65536,
         fun i => if p ≤ i ∧ i < p + 2 * n then flash (a + (i - p)) % 256 else buf i) := by
  intro n
  induction n with
  | zero =>
    intro p a buf ha _
    simp only [readFlashLoopGo, Prod.mk.injEq]
    refine ⟨by omega, by omega, ?_⟩
    funext i
    rw [if_neg (by omega)]
  | succ n ih =>
    intro p a buf ha hn
    simp only [readFlashLoopGo]
    rw [ih (p + 2) ((a + 2) % 65536) _ (Nat.mod_lt _ (by omega)) (by omega)]
    have ha1 : (a + 1) % 65536 = a + 1 := by omega
    simp only [Prod.mk.injEq]
    refine ⟨by omega, by omega, ?_⟩
    funext i
    by_cases h1 : p + 2 ≤ i ∧ i < p + 2 + 2 * n
    · rw [if_pos h1, if_pos (by omega)]
      have harg : (a + 2) % 65536 + (i - (p + 2)) = a + (i - p) := by omega
      rw [harg]
    · rw [if_neg h1]
      by_cases h2 : i = p
      · rw [h2, if_pos (by omega)]
        have harg : a + (p - p) = a := by omega
        rw [harg, upd_other _ _ _ _ (by omega), upd_same]
        omega
      · by_cases h3 : i = p + 1
        · rw [h3, if_pos (by omega)]
          have harg : a + (p + 1 - p) = a + 1 := by omega
          rw [harg, ha1, upd_same]
          omega
        · rw [if_neg (by omega), upd_other _ _ _ _ h3, upd_other _ _ _ _ h2]

lemma fillLoopGo_spec (pageSize : Nat) (buf : Nat → Nat) :
    ∀ n k p a pb, a % pageSize = 2 * k → 2 * (k + n) ≤ pageSize → a + 2 * n ≤ 65536 → a < 65536 →
      fillLoopGo pageSize buf n p a pb =
        (p + 2 * n, (a + 2 * n) % 65536,
         fun o => if k ≤ o ∧ o < k + n then
             (buf (p + 2 * (o - k) + 1) % 256) <<< 8 ||| buf (p + 2 * (o - k)) % 256
           else pb o) := by
  intro n
  induction n with
  | zero =>
    intro k p a pb _ _ _ ha4
    simp only [fillLoopGo, Prod.mk.injEq]
    refine ⟨by first | trivial | omega, by first | trivial | omega, ?_⟩
    funext o
    rw [if_neg (by omega)]
  | succ n ih =>
    intro k p a pb ha hk hn ha4
    have hoff : a % pageSize / 2 = k := by
      rw [ha]
      exact Nat.mul_div_cancel_left k (by norm_num)
    rcases Nat.eq_zero_or_pos n with hn0 | hn0
    · subst hn0
      simp only [fillLoopGo, Prod.mk.injEq]
      refine ⟨by first | trivial | omega, by first | trivial | omega, ?_⟩
      funext o
      split_ifs <;>
        first
        | rfl
        | (exfalso; omega)
        | (have e1 : p + 2 * (o - k) = p := by omega
           rw [e1])
    · have ha2 : (a + 2) % 65536 = a + 2 := by omega
      have hmod : (a + 2) % pageSize = 2 * (k + 1) := by
        rw [Nat.add_mod, ha, Nat.mod_eq_of_lt (show (2 : Nat) < pageSize by omega),
          Nat.mod_eq_of_lt (show 2 * k + 2 < pageSize by omega)]
        omega
      simp only [fillLoopGo]
      rw [ha2, ih (k + 1) (p + 2) (a + 2) _ hmod (by omega) (by omega) (by omega)]
      simp only [Prod.mk.injEq]
      refine ⟨by first | trivial | omega, by first | trivial | omega, ?_⟩
      funext o
      split_ifs <;>
        first
        | rfl
        | (exfalso; omega)
        | (have e1 : p + 2 + 2 * (o - (k + 1)) = p + 2 * (o - k) := by omega
           rw [e1])
        | (have e1 : p + 2 * (o - k) = p := by omega
           rw [e1])

lemma sessionRun_cons_noproc (dev : Device) (s : Session) (c : Nat) (rest : List Nat)
    (hlv : s.isLeave = 0) (hnp : (parseStep s c).1.state ≠ ParseState.stProcess) :
    sessionRun dev s (c :: rest) =
      (sessionRun dev (parseStep s c).1 rest).map (fun r => (r.1, (parseStep s c).2 ++ r.2)) := by
  simp only [sessionRun, hlv]
  rw [if_neg (by simp), if_neg hnp]
  cases h : sessionRun dev (parseStep s c).1 rest with
  | none => rfl
  | some r => obtain ⟨s3, ev3⟩ := r; rfl

lemma sessionRun_cons_proc (dev : Device) (s : Session) (c : Nat) (rest : List Nat)
    (hlv : s.isLeave = 0) (hp : (parseStep s c).1.state = ParseState.stProcess) :
    sessionRun dev s (c :: rest) =
      (dispatchReply dev (parseStep s c).1).bind
        (fun re => (sessionRun dev re.1 rest).map
          (fun r => (r.1, (parseStep s c).2 ++ re.2 ++ r.2))) := by
  simp only [sessionRun, hlv]
  rw [if_neg (by simp), if_pos hp]
  cases hd : dispatchReply dev (parseStep s c).1 with
  | none => rfl
  | some re =>
    obtain ⟨s2, ev2⟩ := re
    simp only [Option.bind]
    cases h : sessionRun dev s2 rest with
    | none => rfl
    | some r => obtain ⟨s3, ev3⟩ := r; rfl

lemma sessionRun_stop (dev : Device) (s : Session) (input : List Nat) (h : s.isLeave ≠ 0) :
    sessionRun dev s input = some (s, []) := by
  cases input with
  | nil => rfl
  | cons c rest => simp only [sessionRun]; rw [if_pos h]

lemma parseStep_start_msg (s : Session) (h : s.state = ParseState.stStart) (c0 : Nat)
    (hc : c0 % 256 = MESSAGE_START) :
    parseStep s c0 =
      ({ s with state := ParseState.stGetSeqNum, checksum := MESSAGE_START ^^^ 0 }, []) := by
  obtain ⟨av, ck, q, L, mb, bi, lv, st, fl, pg, ee⟩ := s
  simp only at h
  subst h
  simp [parseStep, hc]

lemma parseStep_start_timeout (s : Session) (h : s.state = ParseState.stStart) (c0 : Nat)
    (hc : c0 % 256 = CMD_PROGRAMMER_TIMEOUT) :
    parseStep s c0 =
      ({ s with
           msgBuffer := upd s.msgBuffer 0 CMD_PROGRAMMER_TIMEOUT,
           state := ParseState.stProcess },
       [Ev.bufWrite 0 CMD_PROGRAMMER_TIMEOUT]) := by
  obtain ⟨av, ck, q, L, mb, bi, lv, st, fl, pg, ee⟩ := s
  simp only at h
  subst h
  simp [parseStep, hc, MESSAGE_START, CMD_PROGRAMMER_TIMEOUT]

lemma parseStep_seq_accept (s : Session) (h : s.state = ParseState.stGetSeqNum) (c0 : Nat)
    (hacc : c0 % 256 = 1 ∨ c0 % 256 = s.seqNum) :
    parseStep s c0 =
      ({ s with
           seqNum := c0 % 256,
           state := ParseState.stMsgSize1,
           checksum := s.checksum ^^^ c0 % 256 }, []) := by
  obtain ⟨av, ck, q, L, mb, bi, lv, st, fl, pg, ee⟩ := s
  simp only at h hacc
  subst h
  simp [parseStep, hacc]

lemma parseStep_seq_reject (s : Session) (h : s.state = ParseState.stGetSeqNum) (c0 : Nat)
    (hacc : ¬(c0 % 256 = 1 ∨ c0 % 256 = s.seqNum)) :
    parseStep s c0 = ({ s with state := ParseState.stStart }, []) := by
  obtain ⟨av, ck, q, L, mb, bi, lv, st, fl, pg, ee⟩ := s
  simp only at h hacc
  subst h
  simp [parseStep, hacc]

lemma parseStep_size1 (s : Session) (h : s.state = ParseState.stMsgSize1) (c0 : Nat) :
    parseStep s c0 =
      ({ s with
           msgLength := (c0 % 256) <<< 8,
           state := ParseState.stMsgSize2,
           checksum := s.checksum ^^^ c0 % 256 }, []) := by
  obtain ⟨av, ck, q, L, mb, bi, lv, st, fl, pg, ee⟩ := s
  simp only at h
  subst h
  simp [parseStep]

lemma parseStep_size2 (s : Session) (h : s.state = ParseState.stMsgSize2) (c0 : Nat) :
    parseStep s c0 =
      ({ s with
           msgLength := s.msgLength ||| c0 % 256,
           state := ParseState.stGetToken,
           checksum := s.checksum ^^^ c0 % 256 }, []) := by
  obtain ⟨av, ck, q, L, mb, bi, lv, st, fl, pg, ee⟩ := s
  simp only at h
  subst h
  simp [parseStep]

lemma parseStep_token (s : Session) (h : s.state = ParseState.stGetToken) (c0 : Nat)
    (hc : c0 % 256 = TOKEN) :
    parseStep s c0 =
      ({ s with
           state := ParseState.stGetData,
           checksum := s.checksum ^^^ c0 % 256,
           bufIdx := 0 }, []) := by
  obtain ⟨av, ck, q, L, mb, bi, lv, st, fl, pg, ee⟩ := s
  simp only at h
  subst h
  simp [parseStep, hc]

lemma parseStep_data_mid (s : Session) (h : s.state = ParseState.stGetData) (c0 : Nat)
    (hne : (s.bufIdx + 1) % 65536 ≠ s.msgLength) :
    parseStep s c0 =
      ({ s with
           msgBuffer := upd s.msgBuffer s.bufIdx (c0 % 256),
           bufIdx := (s.bufIdx + 1) % 65536,
           checksum := s.checksum ^^^ c0 % 256 },
       [Ev.bufWrite s.bufIdx (c0 % 256)]) := by
  obtain ⟨av, ck, q, L, mb, bi, lv, st, fl, pg, ee⟩ := s
  simp only at h hne
  subst h
  simp [parseStep, hne, upd]

lemma parseStep_data_last (s : Session) (h : s.state = ParseState.stGetData) (c0 : Nat)
    (heq : (s.bufIdx + 1) % 65536 = s.msgLength) :
    parseStep s c0 =
      ({ s with
           msgBuffer := upd s.msgBuffer s.bufIdx (c0 % 256),
           bufIdx := (s.bufIdx + 1) % 65536,
           checksum := s.checksum ^^^ c0 % 256,
           state := ParseState.stGetCheck },
       [Ev.bufWrite s.bufIdx (c0 % 256)]) := by
  obtain ⟨av, ck, q, L, mb, bi, lv, st, fl, pg, ee⟩ := s
  simp only at h heq
  subst h
  simp [parseStep, heq, upd]

lemma parseStep_check_ok (s : Session) (h : s.state = ParseState.stGetCheck) (c0 : Nat)
    (hc : c0 % 256 = s.checksum) :
    parseStep s c0 = ({ s with state := ParseState.stProcess }, []) := by
  obtain ⟨av, ck, q, L, mb, bi, lv, st, fl, pg, ee⟩ := s
  simp only at h hc
  subst h
  simp [parseStep, hc]

lemma parseStep_check_bad (s : Session) (h : s.state = ParseState.stGetCheck) (c0 : Nat)
    (hc : c0 % 256 ≠ s.checksum) :
    parseStep s c0 = ({ s with state := ParseState.stStart }, []) := by
  obtain ⟨av, ck, q, L, mb, bi, lv, st, fl, pg, ee⟩ := s
  simp only at h hc
  subst h
  simp [parseStep, hc]

lemma payload_run (dev : Device) :
    ∀ (ps : List Nat) (rest : List Nat) (s : Session),
      s.state = ParseState.stGetData → s.isLeave = 0 → (∀ b ∈ ps, b < 256) →
      s.bufIdx < s.msgLength → s.bufIdx + ps.length ≤ s.msgLength → s.msgLength ≤ 65535 →
      sessionRun dev s (ps ++ rest) =
        (sessionRun dev
          { s with
              msgBuffer := writeListAt s.msgBuffer s.bufIdx ps,
              bufIdx := s.bufIdx + ps.length,
              checksum := s.checksum ^^^ listXor ps,
              state := if s.bufIdx + ps.length = s.msgLength then ParseState.stGetCheck
                       else ParseState.stGetData }
          rest).map (fun r => (r.1, payloadEvs s.bufIdx ps ++ r.2)) := by
  intro ps
  induction ps with
  | nil =>
    intro rest s hst hlv _ hlt _ _
    have hrec :
        ({ s with
            msgBuffer := writeListAt s.msgBuffer s.bufIdx ([] : List Nat),
            bufIdx := s.bufIdx + List.length ([] : List Nat),
            checksum := s.checksum ^^^ listXor [],
            state := if s.bufIdx + List.length ([] : List Nat) = s.msgLength then
                       ParseState.stGetCheck
                     else ParseState.stGetData } : Session) = s := by
      obtain ⟨av, ck, q, L, mb, bi, lv, st, fl, pg, ee⟩ := s
      simp only at hst hlt
      subst hst
      simp only [List.length_nil, Nat.add_zero, writeListAt, listXor, Nat.xor_zero,
        Session.mk.injEq, and_true, true_and]
      rw [if_neg (by omega)]
    rw [List.nil_append, hrec]
    cases hrun : sessionRun dev s rest with
    | none => rfl
    | some r => simp [payloadEvs]
  | cons b bs ih =>
    intro rest s hst hlv hb hlt hle hL
    have hb0 : b < 256 := hb b (by simp)
    have hbmod : b % 256 = b := Nat.mod_eq_of_lt hb0
    have hlen : (b :: bs).length = bs.length + 1 := List.length_cons b bs
    rw [hlen] at hle
    have hix : (s.bufIdx + 1) % 65536 = s.bufIdx + 1 := Nat.mod_eq_of_lt (by omega)
    by_cases hEnd : s.bufIdx + 1 = s.msgLength
    · have hbs : bs = [] := by
        have : bs.length = 0 := by omega
        exact List.eq_nil_of_length_eq_zero this
      subst hbs
      have hstep := parseStep_data_last s hst b (by rw [hix]; exact hEnd)
      rw [List.cons_append, List.nil_append,
        sessionRun_cons_noproc dev s b rest hlv (by rw [hstep]; simp)]
      rw [hstep]
      simp only [hbmod, hix, writeListAt, payloadEvs, listXor, Nat.xor_zero,
        List.length_cons, List.length_nil, Nat.zero_add]
      rw [if_pos hEnd]
    · have hstep := parseStep_data_mid s hst b (by rw [hix]; exact hEnd)
      rw [List.cons_append,
        sessionRun_cons_noproc dev s b (bs ++ rest) hlv (by rw [hstep]; simp [hst])]
      rw [hstep, hst]
      rw [ih rest
        { s with
            msgBuffer := upd s.msgBuffer s.bufIdx (b % 256),
            bufIdx := (s.bufIdx + 1) % 65536,
            checksum := s.checksum ^^^ b % 256,
            state := ParseState.stGetData }
        rfl hlv (fun x hx => hb x (by simp [hx]))
        (show (s.bufIdx + 1) % 65536 < s.msgLength by omega)
        (show (s.bufIdx + 1) % 65536 + bs.length ≤ s.msgLength by omega) hL]
      dsimp only
      simp only [hbmod, hix, writeListAt, payloadEvs, listXor, List.length_cons]
      have harith : s.bufIdx + 1 + bs.length = s.bufIdx + (bs.length + 1) := by omega
      rw [harith, Nat.xor_assoc]
      cases hrun : sessionRun dev
          { s with
              msgBuffer := writeListAt (upd s.msgBuffer s.bufIdx b) (s.bufIdx + 1) bs,
              bufIdx := s.bufIdx + (bs.length + 1),
              checksum := s.checksum ^^^ (b ^^^ listXor bs),
              state := if s.bufIdx + (bs.length + 1) = s.msgLength then ParseState.stGetCheck
                       else ParseState.stGetData }
          rest with
      | none => rfl
      | some r => simp

lemma header_payload_run (dev : Device) (s : Session) (q lh ll : Nat) (ps rest : List Nat)
    (hst : s.state = ParseState.stStart) (hlv : s.isLeave = 0)
    (hq : q < 256) (hlh : lh < 256) (hll : ll < 256) (hps : ∀ b ∈ ps, b < 256)
    (hacc : q = 1 ∨ q = s.seqNum)
    (hlen : ps.length = lh * 256 + ll) (hlen1 : 1 ≤ ps.length) :
    sessionRun dev s (MESSAGE_START :: q :: lh :: ll :: TOKEN :: (ps ++ rest)) =
      (sessionRun dev (postPayload s q lh ll ps) rest).map
        (fun r => (r.1, payloadEvs 0 ps ++ r.2)) := by
  have hqm : q % 256 = q := Nat.mod_eq_of_lt hq
  have hlhm : lh % 256 = lh := Nat.mod_eq_of_lt hlh
  have hllm : ll % 256 = ll := Nat.mod_eq_of_lt hll
  have htok : TOKEN % 256 = TOKEN := by decide
  have hL : lh <<< 8 ||| ll = lh * 256 + ll := shl8_or_eq lh ll hll
  have h1 := parseStep_start_msg s hst MESSAGE_START (by decide)
  rw [sessionRun_cons_noproc dev s MESSAGE_START _ hlv (by rw [h1]; simp), h1]
  dsimp only
  have h2 := parseStep_seq_accept
    { s with state := ParseState.stGetSeqNum, checksum := MESSAGE_START ^^^ 0 }
    rfl q (by rw [hqm]; exact hacc)
  rw [sessionRun_cons_noproc dev
    { s with state := ParseState.stGetSeqNum, checksum := MESSAGE_START ^^^ 0 }
    q _ hlv (by rw [h2]; simp), h2]
  dsimp only
  rw [hqm]
  have h3 := parseStep_size1
    { s with
        state := ParseState.stMsgSize1,
        checksum := MESSAGE_START ^^^ 0 ^^^ q,
        seqNum := q }
    rfl lh
  rw [sessionRun_cons_noproc dev
    { s with
        state := ParseState.stMsgSize1,
        checksum := MESSAGE_START ^^^ 0 ^^^ q,
        seqNum := q }
    lh _ hlv (by rw [h3]; simp), h3]
  dsimp only
  rw [hlhm]
  have h4 := parseStep_size2
    { s with
        state := ParseState.stMsgSize2,
        checksum := MESSAGE_START ^^^ 0 ^^^ q ^^^ lh,
        seqNum := q,
        msgLength := lh <<< 8 }
    rfl ll
  rw [sessionRun_cons_noproc dev
    { s with
        state := ParseState.stMsgSize2,
        checksum := MESSAGE_START ^^^ 0 ^^^ q ^^^ lh,
        seqNum := q,
        msgLength := lh <<< 8 }
    ll _ hlv (by rw [h4]; simp), h4]
  dsimp only
  rw [hllm, hL]
  have h5 := parseStep_token
    { s with
        state := ParseState.stGetToken,
        checksum := MESSAGE_START ^^^ 0 ^^^ q ^^^ lh ^^^ ll,
        seqNum := q,
        msgLength := lh * 256 + ll }
    rfl TOKEN htok
  rw [sessionRun_cons_noproc dev
    { s with
        state := ParseState.stGetToken,
        checksum := MESSAGE_START ^^^ 0 ^^^ q ^^^ lh ^^^ ll,
        seqNum := q,
        msgLength := lh * 256 + ll }
    TOKEN _ hlv (by rw [h5]; simp), h5]
  dsimp only
  rw [htok]
  rw [payload_run dev ps rest
    { s with
        state := ParseState.stGetData,
        checksum := MESSAGE_START ^^^ 0 ^^^ q ^^^ lh ^^^ ll ^^^ TOKEN,
        seqNum := q,
        msgLength := lh * 256 + ll,
        bufIdx := 0 }
    rfl hlv hps (show (0 : Nat) < lh * 256 + ll by omega)
    (show 0 + ps.length ≤ lh * 256 + ll by omega)
    (show lh * 256 + ll ≤ 65535 by omega)]
  dsimp only
  have hrec :
      ({ s with
          state := if 0 + ps.length = lh * 256 + ll then ParseState.stGetCheck
                   else ParseState.stGetData,
          checksum := MESSAGE_START ^^^ 0 ^^^ q ^^^ lh ^^^ ll ^^^ TOKEN ^^^ listXor ps,
          seqNum := q,
          msgLength := lh * 256 + ll,
          bufIdx := 0 + ps.length,
          msgBuffer := writeListAt s.msgBuffer 0 ps } : Session) =
        postPayload s q lh ll ps := by
    apply Session.ext <;>
      simp [postPayload, listXor, Nat.xor_assoc, Nat.xor_zero, hlen]
  rw [hrec]
  cases hrun : sessionRun dev (postPayload s q lh ll ps) rest with
  | none => rfl
  | some r => simp

lemma frame_run_reject (dev : Device) (s : Session) (q lh ll bad : Nat) (ps rest : List Nat)
    (hst : s.state = ParseState.stStart) (hlv : s.isLeave = 0)
    (hq : q < 256) (hlh : lh < 256) (hll : ll < 256) (hps : ∀ b ∈ ps, b < 256)
    (hbad : bad < 256) (hacc : q = 1 ∨ q = s.seqNum)
    (hlen : ps.length = lh * 256 + ll) (hlen1 : 1 ≤ ps.length)
    (hne : bad ≠ goodChk q lh ll ps) :
    sessionRun dev s (frameBytes q lh ll ps bad ++ rest) =
      (sessionRun dev (postReject s q lh ll ps) rest).map
        (fun r => (r.1, payloadEvs 0 ps ++ r.2)) := by
  have hfb : frameBytes q lh ll ps bad ++ rest
      = MESSAGE_START :: q :: lh :: ll :: TOKEN :: (ps ++ (bad :: rest)) := by
    simp [frameBytes]
  rw [hfb, header_payload_run dev s q lh ll ps (bad :: rest) hst hlv hq hlh hll hps hacc hlen hlen1]
  have hchk := parseStep_check_bad (postPayload s q lh ll ps) rfl bad
    (by rw [Nat.mod_eq_of_lt hbad]; exact hne)
  rw [sessionRun_cons_noproc dev (postPayload s q lh ll ps) bad rest hlv
    (by rw [hchk]; simp), hchk]
  have hpr : ({ postPayload s q lh ll ps with state := ParseState.stStart } : Session)
      = postReject s q lh ll ps := rfl
  rw [hpr]
  cases hrun : sessionRun dev (postReject s q lh ll ps) rest with
  | none => rfl
  | some r => simp

lemma frame_run_accept (dev : Device) (s : Session) (q lh ll : Nat) (ps rest : List Nat)
    (hst : s.state = ParseState.stStart) (hlv : s.isLeave = 0)
    (hq : q < 256) (hlh : lh < 256) (hll : ll < 256) (hps : ∀ b ∈ ps, b < 256)
    (hacc : q = 1 ∨ q = s.seqNum)
    (hlen : ps.length = lh * 256 + ll) (hlen1 : 1 ≤ ps.length) :
    sessionRun dev s (frameBytes q lh ll ps (goodChk q lh ll ps) ++ rest) =
      (dispatchReply dev (postFrame s q lh ll ps)).bind
        (fun re => (sessionRun dev re.1 rest).map
          (fun r => (r.1, payloadEvs 0 ps ++ re.2 ++ r.2))) := by
  have hfb : frameBytes q lh ll ps (goodChk q lh ll ps) ++ rest
      = MESSAGE_START :: q :: lh :: ll :: TOKEN :: (ps ++ (goodChk q lh ll ps :: rest)) := by
    simp [frameBytes]
  rw [hfb, header_payload_run dev s q lh ll ps _ hst hlv hq hlh hll hps hacc hlen hlen1]
  have hgood : goodChk q lh ll ps < 256 := by
    apply listXor_lt
    intro b hbmem
    simp only [List.mem_cons] at hbmem
    rcases hbmem with h | h | h | h | h | h
    · rw [h]; decide
    · omega
    · omega
    · omega
    · rw [h]; decide
    · exact hps b h
  have hchk := parseStep_check_ok (postPayload s q lh ll ps) rfl (goodChk q lh ll ps)
    (by rw [Nat.mod_eq_of_lt hgood]; rfl)
  rw [sessionRun_cons_proc dev (postPayload s q lh ll ps) (goodChk q lh ll ps) rest hlv
    (by rw [hchk]), hchk]
  have hpf : ({ postPayload s q lh ll ps with state := ParseState.stProcess } : Session)
      = postFrame s q lh ll ps := rfl
  rw [hpf]
  cases hd : dispatchReply dev (postFrame s q lh ll ps) with
  | none => rfl
  | some re =>
    simp only [Option.some_bind]
    cases hrun : sessionRun dev re.1 rest with
    | none => rfl
    | some r => simp

lemma traceInv_step (s : Session) (tr : List Nat) (c : Nat) (h : goodTrace s tr) :
    goodTrace (parseStep s c).1 (traceUpd s c tr) := by
  obtain ⟨av, ck, q, L, mb, bi, lv, st, fl, pg, ee⟩ := s
  simp only [goodTrace] at h
  cases st with
  | stStart =>
    simp only [parseStep, traceUpd]
    by_cases h1 : c % 256 = MESSAGE_START
    · rw [if_pos h1, if_pos h1]
      simp [goodTrace, listXor]
    · rw [if_neg h1, if_neg h1]
      by_cases h2 : c % 256 = CMD_PROGRAMMER_TIMEOUT
      · rw [if_pos h2]
        simp [goodTrace]
      · rw [if_neg h2]
        simp [goodTrace]
  | stGetSeqNum =>
    obtain ⟨hck, htr⟩ := h
    subst htr
    simp only [parseStep, traceUpd]
    by_cases h1 : c % 256 = 1 ∨ c % 256 = q
    · rw [if_pos h1, if_pos h1]
      refine ⟨by simp [listXor, listXor_concat, Nat.xor_assoc, Nat.xor_zero, hck], c % 256, by simp⟩
    · rw [if_neg h1, if_neg h1]
      simp [goodTrace]
  | stMsgSize1 =>
    obtain ⟨hck, q1, htr⟩ := h
    subst htr
    simp only [parseStep, traceUpd]
    exact ⟨by simp [listXor, listXor_concat, Nat.xor_assoc, Nat.xor_zero, hck], q1, c % 256, by simp⟩
  | stMsgSize2 =>
    obtain ⟨hck, q1, l1, htr⟩ := h
    subst htr
    simp only [parseStep, traceUpd]
    exact ⟨by simp [listXor, listXor_concat, Nat.xor_assoc, Nat.xor_zero, hck], q1, l1, c % 256, by simp⟩
  | stGetToken =>
    obtain ⟨hck, q1, l1, l2, htr⟩ := h
    subst htr
    simp only [parseStep, traceUpd]
    by_cases h1 : c % 256 = TOKEN
    · rw [if_pos h1, if_pos h1]
      refine ⟨by simp [listXor, listXor_concat, Nat.xor_assoc, Nat.xor_zero, hck], q1, l1, l2, [], by simp [h1]⟩
    · rw [if_neg h1, if_neg h1]
      simp [goodTrace]
  | stGetData =>
    obtain ⟨hck, q1, l1, l2, ps1, htr⟩ := h
    subst htr
    simp only [parseStep, traceUpd]
    by_cases h1 : (bi + 1) % 65536 = L
    · rw [if_pos h1]
      refine ⟨by simp [listXor, listXor_concat, Nat.xor_assoc, Nat.xor_zero, hck], q1, l1, l2, ps1 ++ [c % 256], by simp⟩
    · rw [if_neg h1]
      refine ⟨by simp [listXor, listXor_concat, Nat.xor_assoc, Nat.xor_zero, hck], q1, l1, l2, ps1 ++ [c % 256], by simp⟩
  | stGetCheck =>
    obtain ⟨hck, q1, l1, l2, ps1, htr⟩ := h
    subst htr
    simp only [parseStep, traceUpd]
    by_cases h1 : c % 256 = ck
    · rw [if_pos h1]
      simp [goodTrace]
    · rw [if_neg h1]
      simp [goodTrace]
  | stProcess =>
    simp [parseStep, traceUpd, goodTrace]

lemma traceInv_run : ∀ (bs : List Nat) (p : Session × List Nat),
    goodTrace p.1 p.2 → goodTrace (parseRunTr p bs).1 (parseRunTr p bs).2 := by
  intro bs
  induction bs with
  | nil => intro p h; obtain ⟨s, tr⟩ := p; exact h
  | cons c rest ih =>
    intro p h
    obtain ⟨s, tr⟩ := p
    rw [parseRunTr]
    exact ih _ (traceInv_step s tr c h)

lemma dispatch_load (dev : Device) (s : Session) (h : s.msgBuffer 0 % 256 = CMD_LOAD_ADDRESS) :
    dispatch dev s =
      (some { s with
                address := ((s.msgBuffer 3 % 256) <<< 8 ||| s.msgBuffer 4 % 256) <<< 1 % 65536,
                msgLength := 2,
                msgBuffer := upd s.msgBuffer 1 STATUS_CMD_OK }, []) := by
  rw [dispatch, h]
  rw [if_neg (by decide), if_neg (by decide), if_neg (by decide), if_neg (by decide),
    if_neg (by decide), if_neg (by decide), if_neg (by decide), if_neg (by decide),
    if_neg (by decide), if_pos (by decide)]

lemma dispatch_progflash (dev : Device) (s : Session)
    (h : s.msgBuffer 0 % 256 = CMD_PROGRAM_FLASH_ISP) :
    dispatch dev s =
      (if s.address < dev.bootAddr - 1 then
         match flashLoopIters ((s.msgBuffer 1 % 256) <<< 8 ||| s.msgBuffer 2 % 256) with
         | none => (none, [Ev.pageErase s.address])
         | some n =>
           (some { s with
                     flash := commitPage dev.pageSize s.address
                       (fillLoopGo dev.pageSize s.msgBuffer n 10 s.address s.pageBuf).2.2
                       (erasePage dev.pageSize s.address s.flash),
                     pageBuf := (fillLoopGo dev.pageSize s.msgBuffer n 10 s.address s.pageBuf).2.2,
                     address := (fillLoopGo dev.pageSize s.msgBuffer n 10 s.address s.pageBuf).2.1,
                     msgLength := 2,
                     msgBuffer := upd s.msgBuffer 1 STATUS_CMD_OK },
            [Ev.pageErase s.address, Ev.pageWrite s.address])
       else
         (some { s with msgLength := 2, msgBuffer := upd s.msgBuffer 1 STATUS_CMD_OK }, [])) := by
  rw [dispatch, h]
  rw [if_neg (by decide), if_neg (by decide), if_neg (by decide), if_neg (by decide),
    if_neg (by decide), if_neg (by decide), if_neg (by decide), if_neg (by decide),
    if_neg (by decide), if_neg (by decide), if_pos (by decide), if_pos (by decide)]

lemma dispatch_readflash (dev : Device) (s : Session)
    (h : s.msgBuffer 0 % 256 = CMD_READ_FLASH_ISP) :
    dispatch dev s =
      (match flashLoopIters ((s.msgBuffer 1 % 256) <<< 8 ||| s.msgBuffer 2 % 256) with
       | none => (none, [])
       | some n =>
         (some { s with
                   msgBuffer := upd
                     (readFlashLoopGo s.flash n 2 s.address (upd s.msgBuffer 1 STATUS_CMD_OK)).2.2
                     (readFlashLoopGo s.flash n 2 s.address (upd s.msgBuffer 1 STATUS_CMD_OK)).1
                     STATUS_CMD_OK,
                   address := (readFlashLoopGo s.flash n 2 s.address (upd s.msgBuffer 1 STATUS_CMD_OK)).2.1,
                   msgLength := (((s.msgBuffer 1 % 256) <<< 8 ||| s.msgBuffer 2 % 256) + 3) % 65536 },
          [])) := by
  rw [dispatch, h]
  rw [if_neg (by decide), if_neg (by decide), if_neg (by decide), if_neg (by decide),
    if_neg (by decide), if_neg (by decide), if_neg (by decide), if_neg (by decide),
    if_neg (by decide), if_neg (by decide), if_neg (by decide), if_pos (by decide),
    if_pos (by decide)]

lemma dispatch_readeeprom (dev : Device) (s : Session)
    (h : s.msgBuffer 0 % 256 = CMD_READ_EEPROM_ISP) :
    dispatch dev s =
      (match byteLoopIters ((s.msgBuffer 1 % 256) <<< 8 ||| s.msgBuffer 2 % 256) with
       | none => (none, [])
       | some n =>
         (some { s with
                   msgBuffer := upd
                     (eeReadLoopGo s.eeprom n 2 s.address (upd s.msgBuffer 1 STATUS_CMD_OK)).2.2
                     (eeReadLoopGo s.eeprom n 2 s.address (upd s.msgBuffer 1 STATUS_CMD_OK)).1
                     STATUS_CMD_OK,
                   address := (eeReadLoopGo s.eeprom n 2 s.address (upd s.msgBuffer 1 STATUS_CMD_OK)).2.1,
                   msgLength := (((s.msgBuffer 1 % 256) <<< 8 ||| s.msgBuffer 2 % 256) + 3) % 65536 },
          [])) := by
  rw [dispatch, h]
  rw [if_neg (by decide), if_neg (by decide), if_neg (by decide), if_neg (by decide),
    if_neg (by decide), if_neg (by decide), if_neg (by decide), if_neg (by decide),
    if_neg (by decide), if_neg (by decide), if_neg (by decide), if_pos (by decide),
    if_neg (by decide)]

lemma dispatch_timeout (dev : Device) (s : Session)
    (h : s.msgBuffer 0 % 256 = CMD_PROGRAMMER_TIMEOUT) :
    dispatch dev s = (some { s with isLeave := 2 }, []) := by
  rw [dispatch, h]
  rw [if_neg (by decide), if_neg (by decide), if_neg (by decide), if_neg (by decide),
    if_neg (by decide), if_neg (by decide), if_neg (by decide), if_neg (by decide),
    if_neg (by decide), if_neg (by decide), if_neg (by decide), if_neg (by decide),
    if_pos (by decide)]

lemma page_below (pS a B : Nat) (hdvd : pS ∣ B) (hpos : 0 < pS) (ha : a < B) :
    a - a % pS + pS ≤ B := by
  obtain ⟨m, rfl⟩ := hdvd
  have h1 : a % pS < pS := Nat.mod_lt _ hpos
  have h2 := Nat.div_add_mod a pS
  have h3 : a / pS < m := by
    by_contra h
    push_neg at h
    have : pS * m ≤ pS * (a / pS) := Nat.mul_le_mul_left _ h
    omega
  have h4 : pS * (a / pS + 1) ≤ pS * m := Nat.mul_le_mul_left _ h3
  have h5 : pS * (a / pS + 1) = pS * (a / pS) + pS := by ring
  omega

lemma progFlashBuf_data (n : Nat) (d : Nat → Nat) (j : Nat) :
    progFlashBuf n d (10 + j) = d j := by
  rw [progFlashBuf]
  rw [if_neg (by omega), if_neg (by omega), if_neg (by omega), if_pos (by omega)]
  congr 1
  omega

lemma loadAddr_eq (s : Session) (A : Nat) (hAlt : A < 65536) (hAev : A % 2 = 0) :
    (((withBuf s (loadBuf (A / 2))).msgBuffer 3 % 256) <<< 8
        ||| (withBuf s (loadBuf (A / 2))).msgBuffer 4 % 256) <<< 1 % 65536 = A := by
  have e3 : (withBuf s (loadBuf (A / 2))).msgBuffer 3 = A / 2 / 256 := rfl
  have e4 : (withBuf s (loadBuf (A / 2))).msgBuffer 4 = A / 2 % 256 := rfl
  rw [e3, e4, Nat.mod_eq_of_lt (show A / 2 / 256 < 256 by omega),
      Nat.mod_eq_of_lt (show A / 2 % 256 < 256 from Nat.mod_lt _ (by norm_num)),
      shl8_or_eq _ _ (Nat.mod_lt _ (by norm_num)), shl1_eq]
  omega

lemma dispatch_load_ok (dev : Device) (s : Session) (A : Nat)
    (hAlt : A < 65536) (hAev : A % 2 = 0) :
    (dispatch dev (withBuf s (loadBuf (A / 2)))).1 =
      some { withBuf s (loadBuf (A / 2)) with
               address := A, msgLength := 2,
               msgBuffer := upd (loadBuf (A / 2)) 1 STATUS_CMD_OK } := by
  rw [dispatch_load dev (withBuf s (loadBuf (A / 2))) rfl]
  dsimp only
  rw [loadAddr_eq s A hAlt hAev]
  rfl

lemma dispatch_load_ok2 (dev : Device) (s : Session) (w : Nat) (hw : w < 65536) :
    (dispatch dev (withBuf s (loadBuf w))).1 =
      some { withBuf s (loadBuf w) with
               address := 2 * w % 65536, msgLength := 2,
               msgBuffer := upd (loadBuf w) 1 STATUS_CMD_OK } := by
  rw [dispatch_load dev (withBuf s (loadBuf w)) rfl]
  dsimp only
  have haddr : (((withBuf s (loadBuf w)).msgBuffer 3 % 256) <<< 8
      ||| (withBuf s (loadBuf w)).msgBuffer 4 % 256) <<< 1 % 65536 = 2 * w % 65536 := by
    have e3 : (withBuf s (loadBuf w)).msgBuffer 3 = w / 256 := rfl
    have e4 : (withBuf s (loadBuf w)).msgBuffer 4 = w % 256 := rfl
    rw [e3, e4, Nat.mod_eq_of_lt (show w / 256 < 256 by omega),
        Nat.mod_eq_of_lt (show w % 256 < 256 from Nat.mod_lt _ (by norm_num)),
        shl8_or_eq _ _ (Nat.mod_lt _ (by norm_num)), shl1_eq]
    omega
  rw [haddr]
  rfl

lemma dispatch_progflash_ok (dev : Device) (s : Session) (A N : Nat) (d : Nat → Nat)
    (haddr : s.address = A) (hguard : A < dev.bootAddr - 1)
    (hN2 : 2 ≤ N) (hNev : N % 2 = 0) (hNle : N ≤ 65535) :
    (dispatch dev (withBuf s (progFlashBuf N d))).1 =
      some { withBuf s (progFlashBuf N d) with
               flash := commitPage dev.pageSize A
                 (fillLoopGo dev.pageSize (progFlashBuf N d) (N / 2) 10 A s.pageBuf).2.2
                 (erasePage dev.pageSize A s.flash),
               pageBuf := (fillLoopGo dev.pageSize (progFlashBuf N d) (N / 2) 10 A s.pageBuf).2.2,
               address := (fillLoopGo dev.pageSize (progFlashBuf N d) (N / 2) 10 A s.pageBuf).2.1,
               msgLength := 2,
               msgBuffer := upd (progFlashBuf N d) 1 STATUS_CMD_OK } := by
  have ha2 : (withBuf s (progFlashBuf N d)).address = A := haddr
  have hsz : ((withBuf s (progFlashBuf N d)).msgBuffer 1 % 256) <<< 8
      ||| (withBuf s (progFlashBuf N d)).msgBuffer 2 % 256 = N := by
    have e1 : (withBuf s (progFlashBuf N d)).msgBuffer 1 = N / 256 := rfl
    have e2 : (withBuf s (progFlashBuf N d)).msgBuffer 2 = N % 256 := rfl
    rw [e1, e2, Nat.mod_eq_of_lt (show N / 256 < 256 by omega),
        Nat.mod_eq_of_lt (show N % 256 < 256 from Nat.mod_lt _ (by norm_num)),
        shl8_or_eq _ _ (Nat.mod_lt _ (by norm_num))]
    omega
  have hguard2 : (withBuf s (progFlashBuf N d)).address < dev.bootAddr - 1 := by
    rw [ha2]
    exact hguard
  rw [dispatch_progflash dev (withBuf s (progFlashBuf N d)) rfl]
  rw [if_pos hguard2, hsz, flashLoopIters_even N hN2 hNev hNle]
  dsimp only
  rw [ha2]
  rfl

lemma dispatch_readflash_ok (dev : Device) (s : Session) (A N : Nat)
    (haddr : s.address = A) (hN2 : 2 ≤ N) (hNev : N % 2 = 0) (hNle : N ≤ 65535) :
    (dispatch dev (withBuf s (readFlashBuf N))).1 =
      some { withBuf s (readFlashBuf N) with
               msgBuffer := upd
                 (readFlashLoopGo s.flash (N / 2) 2 A
                    (upd (readFlashBuf N) 1 STATUS_CMD_OK)).2.2
                 (readFlashLoopGo s.flash (N / 2) 2 A
                    (upd (readFlashBuf N) 1 STATUS_CMD_OK)).1
                 STATUS_CMD_OK,
               address := (readFlashLoopGo s.flash (N / 2) 2 A
                 (upd (readFlashBuf N) 1 STATUS_CMD_OK)).2.1,
               msgLength := (N + 3) % 65536 } := by
  have ha2 : (withBuf s (readFlashBuf N)).address = A := haddr
  have hsz : ((withBuf s (readFlashBuf N)).msgBuffer 1 % 256) <<< 8
      ||| (withBuf s (readFlashBuf N)).msgBuffer 2 % 256 = N := by
    have e1 : (withBuf s (readFlashBuf N)).msgBuffer 1 = N / 256 := rfl
    have e2 : (withBuf s (readFlashBuf N)).msgBuffer 2 = N % 256 := rfl
    rw [e1, e2, Nat.mod_eq_of_lt (show N / 256 < 256 by omega),
        Nat.mod_eq_of_lt (show N % 256 < 256 from Nat.mod_lt _ (by norm_num)),
        shl8_or_eq _ _ (Nat.mod_lt _ (by norm_num))]
    omega
  rw [dispatch_readflash dev (withBuf s (readFlashBuf N)) rfl]
  rw [hsz, flashLoopIters_even N hN2 hNev hNle]
  dsimp only
  rw [ha2]
  rfl

lemma progflash_flash_value (pS A N : Nat) (d pb f : Nat → Nat) (i : Nat)
    (halign : A % pS = 0) (hNev : N % 2 = 0) (hN2 : 2 ≤ N) (hNp : N ≤ pS)
    (hA65 : A + N ≤ 65536) (hi : i < N) :
    commitPage pS A (fillLoopGo pS (progFlashBuf N d) (N / 2) 10 A pb).2.2
      (erasePage pS A f) (A + i) = d i % 256 := by
  have hfill := fillLoopGo_spec pS (progFlashBuf N d) (N / 2) 0 10 A pb
    (by omega) (by omega) (by omega) (by omega)
  rw [hfill]
  rw [commitPage]
  dsimp only
  rw [halign, Nat.sub_zero]
  have hcond : A ≤ A + i ∧ A + i < A + pS := by omega
  rw [if_pos hcond]
  have hsub : A + i - A = i := by omega
  rw [hsub]
  by_cases hpar : i % 2 = 0
  · rw [if_pos hpar, if_pos (show 0 ≤ i / 2 ∧ i / 2 < 0 + N / 2 by omega)]
    have e2 : 10 + 2 * (i / 2 - 0) + 1 = 10 + (i + 1) := by omega
    have e3 : 10 + 2 * (i / 2 - 0) = 10 + i := by omega
    rw [e2, e3, progFlashBuf_data, progFlashBuf_data,
        shl8_or_eq _ _ (Nat.mod_lt _ (by norm_num))]
    omega
  · rw [if_neg hpar, if_pos (show 0 ≤ i / 2 ∧ i / 2 < 0 + N / 2 by omega)]
    have e2 : 10 + 2 * (i / 2 - 0) + 1 = 10 + i := by omega
    have e3 : 10 + 2 * (i / 2 - 0) = 10 + (i - 1) := by omega
    rw [e2, e3, progFlashBuf_data, progFlashBuf_data,
        shl8_or_eq _ _ (Nat.mod_lt _ (by norm_num))]
    omega

/-- C6: round-trip through the flash handlers.  For every page-aligned byte
address `A` below the bootloader boundary and every even size `N` with
`2 ≤ N ≤ pageSize`, dispatching load-address for `A`, program-flash of the
`N` data bytes `d 0 … d (N-1)`, load-address for `A` again, and read-flash
of size `N` succeeds and the read reply's data bytes (buffer indices
`2 … N+1`) are exactly the programmed bytes, reduced mod 256 as an 8-bit
store does.  `pageSize ∣ bootAddr` is the page alignment of the boundary
guaranteed by the BOOTSZ fuses. -/
theorem c6_roundtrip (dev : Device) (s : Session) (A N : Nat) (d : Nat → Nat)
    (hpos : 0 < dev.pageSize) (hev : dev.pageSize % 2 = 0)
    (hdvd : dev.pageSize ∣ dev.bootAddr) (hB : dev.bootAddr ≤ 65535)
    (halign : A % dev.pageSize = 0) (hAB : A < dev.bootAddr)
    (hN2 : 2 ≤ N) (hNev : N % 2 = 0) (hNp : N ≤ dev.pageSize) :
    ∃ s4 : Session, roundTrip dev s A N d = some s4 ∧
      ∀ i, i < N → s4.msgBuffer (2 + i) = d i % 256 := by
  have hpS2 : 2 ≤ dev.pageSize := by omega
  have hApS : A + dev.pageSize ≤ dev.bootAddr := by
    obtain ⟨u, hu⟩ := Nat.dvd_of_mod_eq_zero halign
    obtain ⟨v, hv⟩ := hdvd
    have huv : u < v := by
      by_contra hle
      push_neg at hle
      have h := Nat.mul_le_mul_left dev.pageSize hle
      omega
    have h2 := Nat.mul_le_mul_left dev.pageSize (show u + 1 ≤ v by omega)
    have h3 : dev.pageSize * (u + 1) = dev.pageSize * u + dev.pageSize := by ring
    omega
  have hguard : A < dev.bootAddr - 1 := by omega
  have hAN : A + N ≤ 65535 := by omega
  have hAlt : A < 65536 := by omega
  have hNle : N ≤ 65535 := by omega
  have hAev : A % 2 = 0 := by
    have h2d : (2 : Nat) ∣ dev.pageSize := Nat.dvd_of_mod_eq_zero hev
    have hpA : dev.pageSize ∣ A := Nat.dvd_of_mod_eq_zero halign
    obtain ⟨c, hc⟩ := h2d.trans hpA
    omega
  rw [roundTrip]
  rw [dispatch_load_ok dev s A hAlt hAev, Option.some_bind]
  generalize hg1 : ({ withBuf s (loadBuf (A / 2)) with
      address := A, msgLength := 2,
      msgBuffer := upd (loadBuf (A / 2)) 1 STATUS_CMD_OK } : Session) = t1
  have ht1a : t1.address = A := by rw [← hg1]
  rw [dispatch_progflash_ok dev t1 A N d ht1a hguard hN2 hNev hNle, Option.some_bind]
  generalize hg2 : ({ withBuf t1 (progFlashBuf N d) with
      flash := commitPage dev.pageSize A
        (fillLoopGo dev.pageSize (progFlashBuf N d) (N / 2) 10 A t1.pageBuf).2.2
        (erasePage dev.pageSize A t1.flash),
      pageBuf := (fillLoopGo dev.pageSize (progFlashBuf N d) (N / 2) 10 A t1.pageBuf).2.2,
      address := (fillLoopGo dev.pageSize (progFlashBuf N d) (N / 2) 10 A t1.pageBuf).2.1,
      msgLength := 2,
      msgBuffer := upd (progFlashBuf N d) 1 STATUS_CMD_OK } : Session) = t2
  have ht2f : t2.flash = commitPage dev.pageSize A
      (fillLoopGo dev.pageSize (progFlashBuf N d) (N / 2) 10 A t1.pageBuf).2.2
      (erasePage dev.pageSize A t1.flash) := by rw [← hg2]
  rw [dispatch_load_ok dev t2 A hAlt hAev, Option.some_bind]
  generalize hg3 : ({ withBuf t2 (loadBuf (A / 2)) with
      address := A, msgLength := 2,
      msgBuffer := upd (loadBuf (A / 2)) 1 STATUS_CMD_OK } : Session) = t3
  have ht3a : t3.address = A := by rw [← hg3]
  have ht3f : t3.flash = t2.flash := by
    rw [← hg3]
    rfl
  rw [dispatch_readflash_ok dev t3 A N ht3a hN2 hNev hNle]
  refine ⟨_, rfl, ?_⟩
  intro i hi
  show upd (readFlashLoopGo t3.flash (N / 2) 2 A (upd (readFlashBuf N) 1 STATUS_CMD_OK)).2.2
      (readFlashLoopGo t3.flash (N / 2) 2 A (upd (readFlashBuf N) 1 STATUS_CMD_OK)).1
      STATUS_CMD_OK (2 + i) = d i % 256
  rw [readFlashLoopGo_spec t3.flash (N / 2) 2 A (upd (readFlashBuf N) 1 STATUS_CMD_OK)
    hAlt (by omega)]
  dsimp only
  rw [upd_other _ _ _ _ (by omega : (2 + i) ≠ 2 + 2 * (N / 2))]
  rw [if_pos (show 2 ≤ 2 + i ∧ 2 + i < 2 + 2 * (N / 2) by omega)]
  have hidx : 2 + i - 2 = i := by omega
  rw [hidx, ht3f, ht2f,
    progflash_flash_value dev.pageSize A N d t1.pageBuf t1.flash i halign hNev hN2 hNp
      (by omega) hi]
  omega

/-- Witness for C6: on the example device, programming the two bytes
0xAB 0xAB at address 0 and reading them back returns them. -/
theorem c6_roundtrip_witness :
    0 < devEx.pageSize ∧ devEx.pageSize ∣ devEx.bootAddr ∧
      (∃ s4 : Session, roundTrip devEx initSession 0 2 (fun _ => 0xAB) = some s4 ∧
        ∀ i, i < 2 → s4.msgBuffer (2 + i) = 0xAB % 256) :=
  ⟨by decide, by decide,
    c6_roundtrip devEx initSession 0 2 (fun _ => 0xAB) (by decide) (by decide) (by decide)
      (by decide) (by decide) (by decide) (by decide) (by decide) (by decide)⟩

/-- C10: in the `ST_START` parser state a received byte equal to the
timeout sentinel `0x2F` — whether synthesized by `recchar`'s timeout or
actually received over the serial link, the dispatcher cannot tell — makes
the dispatcher set `isLeave` to the no-reply terminal value 2, send no
reply byte, and exit the main loop: whatever bytes follow are never
processed and the session ends silently. -/
theorem c10_timeout_byte (dev : Device) (s : Session) (rest : List Nat)
    (hst : s.state = ParseState.stStart) (hlv : s.isLeave = 0) :
    (sessionRun dev s (CMD_PROGRAMMER_TIMEOUT :: rest)).map
      (fun r => (r.1.isLeave, outBytes r.2)) = some (2, []) := by
  have hstep := parseStep_start_timeout s hst CMD_PROGRAMMER_TIMEOUT (by decide)
  rw [sessionRun_cons_proc dev s CMD_PROGRAMMER_TIMEOUT rest hlv (by rw [hstep]), hstep]
  have hbuf : ({ s with
      msgBuffer := upd s.msgBuffer 0 CMD_PROGRAMMER_TIMEOUT,
      state := ParseState.stProcess } : Session).msgBuffer 0 % 256 = CMD_PROGRAMMER_TIMEOUT := by
    simp [upd, CMD_PROGRAMMER_TIMEOUT]
  rw [dispatchReply, dispatch_timeout dev _ hbuf]
  dsimp only
  rw [replyStep, if_neg (by simp)]
  dsimp only
  rw [Option.some_bind, sessionRun_stop dev _ rest (by simp)]
  simp [outBytes]

/-- Witness for C10 at a concrete session and input. -/
theorem c10_timeout_byte_witness :
    initSession.state = ParseState.stStart ∧ initSession.isLeave = 0 ∧
      (sessionRun devEx initSession [CMD_PROGRAMMER_TIMEOUT, 0x1B]).map
        (fun r => (r.1.isLeave, outBytes r.2)) = some (2, []) :=
  ⟨rfl, rfl, c10_timeout_byte devEx initSession [0x1B] rfl rfl⟩

/-- C1: a `CMD_PROGRAM_FLASH_ISP` command never erases and never writes
flash at or above `BOOTLOADER_ADDRESS`, whatever the session's current
address, the declared size, or the data: every `boot_page_erase` /
`boot_page_write` call targets an address strictly below the boundary
(first conjunct), and every flash cell at or above the boundary keeps its
previous contents (second conjunct; `pageSize ∣ bootAddr` states that the
bootloader section is page-aligned, as the BOOTSZ fuses guarantee). -/
theorem c1_flash_boundary (dev : Device) (s : Session)
    (hcmd : s.msgBuffer 0 % 256 = CMD_PROGRAM_FLASH_ISP)
    (hdvd : dev.pageSize ∣ dev.bootAddr) (hpos : 0 < dev.pageSize) :
    (∀ a, Ev.pageErase a ∈ (dispatch dev s).2 ∨ Ev.pageWrite a ∈ (dispatch dev s).2 →
        a < dev.bootAddr) ∧
    (∀ s2, (dispatch dev s).1 = some s2 → ∀ x, dev.bootAddr ≤ x → s2.flash x = s.flash x) := by
  rw [dispatch_progflash dev s hcmd]
  by_cases hg : s.address < dev.bootAddr - 1
  · rw [if_pos hg]
    have hb := page_below dev.pageSize s.address dev.bootAddr hdvd hpos (by omega)
    cases hit : flashLoopIters ((s.msgBuffer 1 % 256) <<< 8 ||| s.msgBuffer 2 % 256) with
    | none =>
      constructor
      · intro a ha
        rcases ha with ha | ha
        · simp only [List.mem_singleton, Ev.pageErase.injEq] at ha
          omega
        · simp only [List.mem_singleton] at ha
          exact Ev.noConfusion ha
      · intro s2 hs2
        simp at hs2
    | some n =>
      constructor
      · intro a ha
        rcases ha with ha | ha
        · simp only [List.mem_cons, List.not_mem_nil, or_false] at ha
          rcases ha with ha | ha
          · rw [Ev.pageErase.injEq] at ha
            omega
          · exact Ev.noConfusion ha
        · simp only [List.mem_cons, List.not_mem_nil, or_false] at ha
          rcases ha with ha | ha
          · exact Ev.noConfusion ha
          · rw [Ev.pageWrite.injEq] at ha
            omega
      · intro s2 hs2 x hx
        rw [Option.some_inj] at hs2
        subst hs2
        show commitPage dev.pageSize s.address _ (erasePage dev.pageSize s.address s.flash) x
          = s.flash x
        simp only [commitPage, erasePage]
        rw [if_neg (by omega), if_neg (by omega)]
  · rw [if_neg hg]
    constructor
    · intro a ha
      simp at ha
    · intro s2 hs2 x hx
      rw [Option.some_inj] at hs2
      subst hs2
      rfl

/-- C3: the claim that the parser never writes a payload byte outside the
fixed 285-byte frame buffer is violated by the code: `ST_GET_DATA` stores
`msgBuffer[ii++] = c` with no bound check against the declared 16-bit
length, so a frame declaring length 286 (bytes 0x01,0x1E) makes the parser
write buffer index 285 — one past the last valid index 284 of the 285-byte
array — on the 286th payload byte.  The input below drives the parser to
emit exactly that out-of-bounds write event. -/
theorem c3_buffer_overflow :
    (sessionRun devEx initSession
        ([MESSAGE_START, 1, 0x01, 0x1E, TOKEN] ++ List.replicate 286 0)).map
        (fun r => decide (Ev.bufWrite 285 0 ∈ r.2)) = some true := by
  decide

/-- C5: the parser never reaches `ST_PROCESS` through the checksum
transition with a checksum byte that differs from the XOR of the preceding
frame bytes.  Running the parser with its ghost frame-byte trace from any
trace-consistent start (the reset state qualifies, its trace being empty),
if the run stands in `ST_GET_CHECK` and the next byte `c` moves it to
`ST_PROCESS`, then `c` equals the XOR of exactly the recorded frame bytes,
and those bytes have the frame shape: start marker, sequence byte, two
length bytes, token, then the payload. -/
theorem c5_checksum_sound (bs : List Nat) (c : Nat) (p : Session × List Nat)
    (hinv : goodTrace p.1 p.2)
    (hck : (parseRunTr p bs).1.state = ParseState.stGetCheck)
    (hproc : (parseStep (parseRunTr p bs).1 c).1.state = ParseState.stProcess) :
    c % 256 = listXor (parseRunTr p bs).2 ∧
      ∃ q l1 l2 ps,
        (parseRunTr p bs).2 = MESSAGE_START :: q :: l1 :: l2 :: TOKEN :: ps := by
  have hg := traceInv_run bs p hinv
  simp only [goodTrace, hck] at hg
  obtain ⟨hsum, hshape⟩ := hg
  refine ⟨?_, hshape⟩
  by_contra hcc
  rw [parseStep_check_bad (parseRunTr p bs).1 hck c (by rw [← hsum] at hcc; exact hcc)]
    at hproc
  exact ParseState.noConfusion hproc

/-- Witness for C5: six concrete header/payload bytes put the parser in
`ST_GET_CHECK`; the byte 0x12 moves it to `ST_PROCESS` and indeed equals
the XOR of the six recorded frame bytes. -/
theorem c5_checksum_sound_witness :
    (parseRunTr (initSession, ([] : List Nat)) [0x1B, 1, 0, 1, 0x0E, 7]).1.state
        = ParseState.stGetCheck ∧
      (parseStep (parseRunTr (initSession, ([] : List Nat)) [0x1B, 1, 0, 1, 0x0E, 7]).1
          0x12).1.state = ParseState.stProcess ∧
      (0x12 : Nat) % 256
        = listXor (parseRunTr (initSession, ([] : List Nat)) [0x1B, 1, 0, 1, 0x0E, 7]).2 :=
  ⟨by decide, by decide,
    (c5_checksum_sound [0x1B, 1, 0, 1, 0x0E, 7] 0x12 (initSession, []) (by trivial)
      (by decide) (by decide)).1⟩

/-- C2 counterexample: the claimed acceptance condition — the sequence byte
equals 1 or equals the sequence number of the previously ACCEPTED frame — is
wrong once a reply has been sent, because the reply encoder increments the
stored `seqNum` before the next frame arrives.  Concretely: after two valid
sign-on frames with sequence numbers 1 and 2 the stored number is 3; a new
frame restarting with sequence byte 2 — a duplicate of the previously
accepted frame, which the claim says must be accepted — is rejected, the
parser falling back to `ST_START` instead of advancing to `ST_MSG_SIZE_1`. -/
theorem c2_seq_accept_cex :
    ((2 : Nat) % 256 = 1 ∨ (2 : Nat) % 256 = 2) ∧
    (sessionRun devEx initSession
        (frameBytes 1 0 1 [CMD_SIGN_ON] 0x14 ++ frameBytes 2 0 1 [CMD_SIGN_ON] 0x17
          ++ [MESSAGE_START, 2])).map (fun r => (r.1.state, r.1.seqNum))
      = some (ParseState.stStart, 3) := by
  exact ⟨Or.inr rfl, by decide⟩

/-- C2 amended: in `ST_GET_SEQ_NUM` a byte is accepted exactly when it
equals 1 or equals the CURRENT stored sequence number, i.e. the previously
accepted number PLUS ONE once a reply has gone out, since the reply encoder
executes `seqNum++` — a retransmitted duplicate of the previous frame is
rejected and resets the parser to `ST_START`; any other value likewise
resets to `ST_START`. -/
theorem c2_seq_accept_amended (s : Session) (hst : s.state = ParseState.stGetSeqNum)
    (hlv : s.isLeave < 2) (c0 : Nat) :
    ((parseStep s c0).1.state = ParseState.stMsgSize1 ↔
        c0 % 256 = 1 ∨ c0 % 256 = s.seqNum) ∧
    (¬(c0 % 256 = 1 ∨ c0 % 256 = s.seqNum) → (parseStep s c0).1.state = ParseState.stStart) ∧
    (replyStep s).1.seqNum = (s.seqNum + 1) % 256 := by
  refine ⟨?_, ?_, ?_⟩
  · constructor
    · intro hacc
      by_contra hc
      rw [parseStep_seq_reject s hst c0 hc] at hacc
      exact ParseState.noConfusion hacc
    · intro hacc
      rw [parseStep_seq_accept s hst c0 hacc]
  · intro hc
    rw [parseStep_seq_reject s hst c0 hc]
  · rw [replyStep, if_pos hlv]

/-- Witness for C2 amended at a concrete session: stored sequence number 7,
so byte 7 is accepted, byte 6 (the previously accepted number) would be
rejected by the second conjunct, and a reply would store 8. -/
theorem c2_seq_accept_amended_witness :
    c2sW.state = ParseState.stGetSeqNum ∧ c2sW.isLeave < 2 ∧
      ((parseStep c2sW 7).1.state = ParseState.stMsgSize1 ↔
          (7 : Nat) % 256 = 1 ∨ (7 : Nat) % 256 = c2sW.seqNum) ∧
      (¬((7 : Nat) % 256 = 1 ∨ (7 : Nat) % 256 = c2sW.seqNum) →
          (parseStep c2sW 7).1.state = ParseState.stStart) ∧
      (replyStep c2sW).1.seqNum = (c2sW.seqNum + 1) % 256 :=
  ⟨rfl, by decide, c2_seq_accept_amended c2sW rfl (by decide) 7⟩

/-- C4 counterexample: the claim that after a bad-checksum frame "the
session's stored sequence number is unchanged from its value before the
frame arrived" is wrong: `ST_GET_SEQ_NUM` executes `seqNum = c` before the
checksum is ever verified.  Concretely: from the initial session (stored
number 0), a sign-on frame with sequence byte 1 and a corrupted trailing
checksum 0x15 (the correct value is 0x14) produces no reply bytes, yet
leaves the stored sequence number at 1, not 0. -/
theorem c4_bad_checksum_cex :
    initSession.seqNum = 0 ∧ (0x15 : Nat) ≠ goodChk 1 0 1 [CMD_SIGN_ON] ∧
      (sessionRun devEx initSession (frameBytes 1 0 1 [CMD_SIGN_ON] 0x15)).map
        (fun r => (outBytes r.2, r.1.seqNum)) = some ([], 1) :=
  ⟨rfl, by decide, by decide⟩

/-- C4 amended: a frame whose header and payload are accepted but whose
trailing checksum byte is wrong produces no reply bytes (its only events
are the parser's buffer writes, which send nothing on the wire), and the
stored sequence number afterwards equals the corrupted frame's OWN sequence
byte `q` — updated by `ST_GET_SEQ_NUM` before the checksum check, not kept
at its previous value; precisely because of that update, a retransmitted
valid frame with the same sequence byte `q` is accepted as a duplicate and
handed to the dispatcher for normal processing. -/
theorem c4_bad_checksum_amended (dev : Device) (s : Session) (q lh ll bad : Nat)
    (ps rest : List Nat)
    (hst : s.state = ParseState.stStart) (hlv : s.isLeave = 0)
    (hq : q < 256) (hlh : lh < 256) (hll : ll < 256) (hps : ∀ b ∈ ps, b < 256)
    (hbad : bad < 256) (hacc : q = 1 ∨ q = s.seqNum)
    (hlen : ps.length = lh * 256 + ll) (hlen1 : 1 ≤ ps.length)
    (hne : bad ≠ goodChk q lh ll ps) :
    outBytes (payloadEvs 0 ps) = [] ∧
    (postReject s q lh ll ps).seqNum = q ∧
    sessionRun dev s (frameBytes q lh ll ps bad ++
        (frameBytes q lh ll ps (goodChk q lh ll ps) ++ rest)) =
      ((dispatchReply dev (postFrame (postReject s q lh ll ps) q lh ll ps)).bind
        (fun re => (sessionRun dev re.1 rest).map
          (fun r => (r.1, payloadEvs 0 ps ++ re.2 ++ r.2)))).map
        (fun r => (r.1, payloadEvs 0 ps ++ r.2)) := by
  refine ⟨outBytes_payloadEvs ps 0, rfl, ?_⟩
  rw [frame_run_reject dev s q lh ll bad ps _ hst hlv hq hlh hll hps hbad hacc hlen hlen1 hne]
  rw [frame_run_accept dev (postReject s q lh ll ps) q lh ll ps rest rfl hlv hq hlh hll hps
    (Or.inr rfl) hlen hlen1]

/-- Witness for C4 amended: the corrupted then retransmitted sign-on frame
of the counterexample, at the initial session. -/
theorem c4_bad_checksum_amended_witness :
    (0x15 : Nat) ≠ goodChk 1 0 1 [CMD_SIGN_ON] ∧
      outBytes (payloadEvs 0 [CMD_SIGN_ON]) = [] ∧
      (postReject initSession 1 0 1 [CMD_SIGN_ON]).seqNum = 1 :=
  ⟨by decide,
    (c4_bad_checksum_amended devEx initSession 1 0 1 0x15 [CMD_SIGN_ON] [] rfl rfl
      (by decide) (by decide) (by decide) (by decide) (by decide) (Or.inl rfl)
      (by decide) (by decide) (by decide)).1,
    (c4_bad_checksum_amended devEx initSession 1 0 1 0x15 [CMD_SIGN_ON] [] rfl rfl
      (by decide) (by decide) (by decide) (by decide) (by decide) (Or.inl rfl)
      (by decide) (by decide) (by decide)).2.1⟩

/-- C7 counterexample: the claim is wrong on both counts for the full
16-bit range.  The load-address handler stores the byte address on an
`address_t` (16-bit on flash ≤ 64K devices), so word address 0x8000 yields
`currentAddress` 0, not 2·0x8000 = 0x10000; and a read-flash command of an
odd size `s` (here 3) never returns at all — its do-while decrements the
16-bit size by 2 and an odd counter never reaches zero — instead of
returning `s` bytes. -/
theorem c7_load_read_cex :
    2 * 0x8000 ≠ 0 ∧
      (dispatch devEx (withBuf initSession (loadBuf 0x8000))).1.map (fun r => r.address)
        = some 0 ∧
      (dispatch devEx (withBuf initSession (readFlashBuf 3))).1 = none := by
  refine ⟨by decide, by decide, ?_⟩
  rw [dispatch_readflash devEx (withBuf initSession (readFlashBuf 3)) rfl]
  have hsz : ((withBuf initSession (readFlashBuf 3)).msgBuffer 1 % 256) <<< 8
      ||| (withBuf initSession (readFlashBuf 3)).msgBuffer 2 % 256 = 3 := by decide
  rw [hsz, flashLoopIters_odd 3 (by decide)]

/-- C7 amended: load-address with word address `w` sets `currentAddress`
to the byte address `2·w` TRUNCATED TO 16 BITS, and a subsequent read-flash
of an EVEN size `N` (2 ≤ N ≤ 65535, range fitting in the 16-bit space)
returns the `N` flash bytes starting at that byte address and leaves
`currentAddress` at byte address + `N` (mod 2^16).  The scenario values —
word 0x0010, byte address 0x0020, size 4, final address 0x0024 — satisfy
these preconditions. -/
theorem c7_load_read_amended (dev : Device) (s : Session) (w N : Nat)
    (hw : w < 65536) (hN2 : 2 ≤ N) (hNev : N % 2 = 0) (hNle : N ≤ 65535)
    (hfit : 2 * w % 65536 + N ≤ 65536) :
    ∃ s1 s2 : Session,
      (dispatch dev (withBuf s (loadBuf w))).1 = some s1 ∧
      s1.address = 2 * w % 65536 ∧
      (dispatch dev (withBuf s1 (readFlashBuf N))).1 = some s2 ∧
      s2.address = (2 * w % 65536 + N) % 65536 ∧
      ∀ i, i < N → s2.msgBuffer (2 + i) = s1.flash (2 * w % 65536 + i) % 256 := by
  have hAlt : 2 * w % 65536 < 65536 := Nat.mod_lt _ (by norm_num)
  refine ⟨_, _, dispatch_load_ok2 dev s w hw, rfl,
    dispatch_readflash_ok dev
      { withBuf s (loadBuf w) with
          address := 2 * w % 65536, msgLength := 2,
          msgBuffer := upd (loadBuf w) 1 STATUS_CMD_OK }
      (2 * w % 65536) N rfl hN2 hNev hNle, ?_, ?_⟩
  · show (readFlashLoopGo _ (N / 2) 2 (2 * w % 65536) _).2.1 = (2 * w % 65536 + N) % 65536
    rw [readFlashLoopGo_spec _ (N / 2) 2 (2 * w % 65536) _ hAlt (by omega)]
    dsimp only
    omega
  · intro i hi
    show upd (readFlashLoopGo (withBuf s (loadBuf w)).flash (N / 2) 2 (2 * w % 65536)
          (upd (readFlashBuf N) 1 STATUS_CMD_OK)).2.2
        (readFlashLoopGo (withBuf s (loadBuf w)).flash (N / 2) 2 (2 * w % 65536)
          (upd (readFlashBuf N) 1 STATUS_CMD_OK)).1 STATUS_CMD_OK (2 + i)
        = (withBuf s (loadBuf w)).flash (2 * w % 65536 + i) % 256
    rw [readFlashLoopGo_spec _ (N / 2) 2 (2 * w % 65536) _ hAlt (by omega)]
    dsimp only
    rw [upd_other _ _ _ _ (by omega : (2 + i) ≠ 2 + 2 * (N / 2))]
    rw [if_pos (show 2 ≤ 2 + i ∧ 2 + i < 2 + 2 * (N / 2) by omega)]
    have hidx : 2 + i - 2 = i := by omega
    rw [hidx]

/-- Witness for C7 amended: the scenario of the claim — word address
0x0010, read size 4 — on the example device from the initial session. -/
theorem c7_load_read_amended_witness :
    ∃ s1 s2 : Session,
      (dispatch devEx (withBuf initSession (loadBuf 0x0010))).1 = some s1 ∧
      s1.address = 2 * 0x0010 % 65536 ∧
      (dispatch devEx (withBuf s1 (readFlashBuf 4))).1 = some s2 ∧
      s2.address = (2 * 0x0010 % 65536 + 4) % 65536 ∧
      ∀ i, i < 4 → s2.msgBuffer (2 + i) = s1.flash (2 * 0x0010 % 65536 + i) % 256 :=
  c7_load_read_amended devEx initSession 0x0010 4 (by decide) (by decide) (by decide)
    (by decide) (by decide)

/-- C8 counterexample: the claimed exchange is doubly wrong.  Its input
frame declares length 2 but carries a 1-byte payload, so the parser
consumes the trailing checksum byte 0x17 as the second payload byte and
then waits in `ST_GET_CHECK`: the claimed input produces NO reply bytes at
all.  (The genuine sign-on reply, exhibited by the amended theorem, also
begins 0x01 0x00 0x08 after the token — command echo, then status —
not 0x00 0x08 as claimed.) -/
theorem c8_signon_cex :
    (sessionRun devEx initSession [0x1B, 0x01, 0x00, 0x02, 0x0E, 0x01, 0x17]).map
      (fun r => (outBytes r.2, r.1.state)) = some ([], ParseState.stGetCheck) := by
  decide

/-- C8 amended: a well-formed sign-on frame — sequence 1, length 1, token
0x0E, payload [CMD_SIGN_ON], checksum 0x14 — produces the reply
start marker, sequence 1, length 0x000B, token, then the 11-byte body
0x01 (command echo), 0x00 (STATUS_CMD_OK), 0x08, "AVRISP_2", and the XOR
checksum 0x74. -/
theorem c8_signon_amended :
    (sessionRun devEx initSession [0x1B, 0x01, 0x00, 0x01, 0x0E, 0x01, 0x14]).map
      (fun r => outBytes r.2)
      = some [0x1B, 0x01, 0x00, 0x0B, 0x0E,
              0x01, 0x00, 0x08, 0x41, 0x56, 0x52, 0x49, 0x53, 0x50, 0x5F, 0x32, 0x74] := by
  decide

/-- C9 counterexample: the claim that a flash command of odd declared size
"underflows the counter and iterates approximately 65536 times" is wrong:
`size -= 2` on a 16-bit unsigned counter starting odd stays odd forever and
never reaches zero, so the do-while never exits — the program-flash
handler with declared size 3 never returns (it does erase the page first). -/
theorem c9_dowhile_cex :
    (3 : Nat) % 2 = 1 ∧ flashLoopIters 3 = none ∧
      (dispatch devEx (withBuf initSession (progFlashBuf 3 (fun _ => 0)))).1 = none := by
  refine ⟨rfl, flashLoopIters_odd 3 (by decide), ?_⟩
  rw [dispatch_progflash devEx (withBuf initSession (progFlashBuf 3 (fun _ => 0))) rfl]
  rw [if_pos (by decide)]
  have hsz : ((withBuf initSession (progFlashBuf 3 (fun _ => 0))).msgBuffer 1 % 256) <<< 8
      ||| (withBuf initSession (progFlashBuf 3 (fun _ => 0))).msgBuffer 2 % 256 = 3 := by
    decide
  rw [hsz, flashLoopIters_odd 3 (by decide)]

/-- C9 amended: the do-while loops execute at least once and behave as
specified exactly under the precondition size ≥ 1 (byte loops: size
executions) and size even and ≥ 2 (flash word loops: size/2 executions);
size 0 underflows to 65536 byte iterations or 32768 flash-word iterations,
and an ODD size makes the flash loops non-terminating rather than
≈65536 iterations.  The size-0 read-EEPROM command concretely overruns the
285-byte frame buffer: its dispatch writes buffer index 285 (value 0xFF
from the erased EEPROM). -/
theorem c9_dowhile_amended :
    (∀ s1, 1 ≤ s1 → s1 ≤ 65535 → byteLoopIters s1 = some s1) ∧
    (∀ s1, 2 ≤ s1 → s1 % 2 = 0 → s1 ≤ 65535 → flashLoopIters s1 = some (s1 / 2)) ∧
    byteLoopIters 0 = some 65536 ∧ flashLoopIters 0 = some 32768 ∧
    (∀ n, n % 2 = 1 → flashLoopIters n = none) ∧
    (∃ s2, (dispatch devEx c9sW).1 = some s2 ∧ s2.msgBuffer 285 = 255) := by
  refine ⟨byteLoopIters_pos, flashLoopIters_even, byteLoopIters_zero, flashLoopIters_zero,
    flashLoopIters_odd, ?_⟩
  rw [dispatch_readeeprom devEx c9sW rfl]
  have hsz : (c9sW.msgBuffer 1 % 256) <<< 8 ||| c9sW.msgBuffer 2 % 256 = 0 := by decide
  rw [hsz, byteLoopIters_zero]
  dsimp only
  refine ⟨_, rfl, ?_⟩
  rw [eeReadLoopGo_spec c9sW.eeprom 65536 2 c9sW.address
    (upd c9sW.msgBuffer 1 STATUS_CMD_OK) (by decide)]
  dsimp only
  rw [upd_other _ _ _ _ (by decide : (285 : Nat) ≠ 2 + 65536)]
  rw [if_pos (by decide : (2 : Nat) ≤ 285 ∧ (285 : Nat) < 2 + 65536)]
  decide

/-- Witness for C9 amended at concrete sizes: 1 byte iteration, a 4-byte
flash transfer (2 word iterations), and a non-terminating size-5 flash
loop. -/
theorem c9_dowhile_amended_witness :
    byteLoopIters 1 = some 1 ∧ flashLoopIters 4 = some 2 ∧ flashLoopIters 5 = none :=
  ⟨c9_dowhile_amended.1 1 (by decide) (by decide),
    c9_dowhile_amended.2.1 4 (by decide) (by decide) (by decide),
    c9_dowhile_amended.2.2.2.2.1 5 (by decide)⟩

/-- Witness for C1: a concrete program-flash command on the example device,
with a concrete erase event below the boundary. -/
theorem c1_flash_boundary_witness :
    c1sW.msgBuffer 0 % 256 = CMD_PROGRAM_FLASH_ISP ∧ devEx.pageSize ∣ devEx.bootAddr ∧
      0 < devEx.pageSize ∧ (0 : Nat) < devEx.bootAddr :=
  ⟨by decide, by decide, by decide,
    (c1_flash_boundary devEx c1sW (by decide) (by decide) (by decide)).1 0
      (Or.inl (by decide))⟩

end STK
